import Mathlib

/-!
# xenbus_probe.c: device discovery and lifecycle of the paravirtualised bus

A shallow embedding of `xenbus_probe.c` (the `CONFIG_XEN || MODULE` build, in
which the watch callback is the static `otherend_changed` and the frontend bus
is defined in this file).

* C strings are `List Char` (the characters before the terminating NUL).
* A nullable pointer is an `Option`.
* Everything the file reaches outside itself (the store client, the generic
  device core, the allocator, the scheduler) is either an oracle field of `Env`
  or an entry appended to a log of `Event`s, so that "does not read the store",
  "invokes the callback once", "unregisters nothing" are statements about the
  log.
* Device-class driver callbacks receive the device record and may move its
  local state; the other-end fields belong to the bus layer.
* Diagnostics (`printk`, `dev_warn`, `pr_warning`, `dev_info`) are left out.
* The sections "in the words of the spec" (`segments`, `join_segments`,
  `reset_steps`, ...) define the vocabulary of the specification; the theorems
  compare the code with them.
-/

namespace Xenbus

/-! ## Constants and C library routines -/

/-- Linux errno value of ENOENT. -/
def ENOENT : Int := 2
/-- Linux errno value of ENOMEM. -/
def ENOMEM : Int := 12
/-- Linux errno value of ENODEV. -/
def ENODEV : Int := 19
/-- Linux errno value of EINVAL. -/
def EINVAL : Int := 22
/-- Linux errno value of ERANGE. -/
def ERANGE : Int := 34

/-- Kernel `strcmp`: 0 on equal strings, -1 or 1 at the first difference. -/
def strcmp : List Char → List Char → Int
  | [], [] => 0
  | [], _ :: _ => -1
  | _ :: _, [] => 1
  | a :: as, b :: bs =>
    if a = b then strcmp as bs else if a.toNat < b.toNat then -1 else 1

/-- Kernel `strncmp`: compares at most `count` characters, stopping at the
end of either string. -/
def strncmp : List Char → List Char → Nat → Int
  | _, _, 0 => 0
  | [], [], _ + 1 => 0
  | [], _ :: _, _ + 1 => -1
  | _ :: _, [], _ + 1 => 1
  | a :: as, b :: bs, n + 1 =>
    if a = b then strncmp as bs n else if a.toNat < b.toNat then -1 else 1

/-- `strlen`. -/
def strlen (s : List Char) : Nat := s.length

/-- `strchr(s, c)`: the suffix of `s` starting at the first `c`, or NULL. -/
def strchr : List Char → Char → Option (List Char)
  | [], _ => none
  | x :: xs, c => if x = c then some (x :: xs) else strchr xs c

/-- `strcspn(s, "/")` for a one-character reject set. -/
def strcspn : List Char → Char → Nat
  | [], _ => 0
  | x :: xs, c => if x = c then 0 else strcspn xs c + 1

/-! ## Data model -/

/-- Modelled from the spec: the XenbusState enumeration, declared in a header
that is not among the sources; section 3 lists its members and their integer
values (see `XenbusState.toInt`). -/
inductive XenbusState where
  | Unknown
  | Initialising
  | InitWait
  | Initialised
  | Connected
  | Closing
  | Closed
  | Reconfiguring
  | Reconfigured
deriving DecidableEq, Repr

/-- Integer mirrored in the store for each state (spec section 3). -/
def XenbusState.toInt : XenbusState → Int
  | .Unknown => 0
  | .Initialising => 1
  | .InitWait => 2
  | .Initialised => 3
  | .Connected => 4
  | .Closing => 5
  | .Closed => 6
  | .Reconfiguring => 7
  | .Reconfigured => 8

/-- The three read-only attributes published per device
(`dev_attr_nodename`, `dev_attr_devtype`, `dev_attr_modalias`). -/
inductive DevAttr where
  | nodename
  | devtype
  | modalias
deriving DecidableEq, Repr

/-- The part of the generic `struct device` embedded in a xenbus device that
this file writes: its name and its attribute files.  The `driver` pointer is
passed to the operations as a separate argument. -/
structure device where
  bus_id : List Char
  files : List DevAttr
deriving DecidableEq, Repr

/-- The record `struct xenbus_device`.  `otherend_watch` is the `node` field of
the embedded watch (NULL when no watch is registered). -/
structure xenbus_device where
  nodename : List Char
  devicetype : List Char
  state : XenbusState
  otherend : Option (List Char)
  otherend_id : Int
  otherend_watch : Option (List Char)
  dev : device
deriving DecidableEq, Repr

/-- One entry of a driver's match table (`struct xenbus_device_id`). -/
structure xenbus_device_id where
  devicetype : List Char
deriving DecidableEq, Repr

/-- Effects that leave this file, in the order they happen. -/
inductive Event where
  | xs_exists (path : List Char)
  | xs_read_state (path : List Char)
  | xs_gather (dir id_node path_node : List Char)
  | xs_write_state (nodename : List Char) (st : XenbusState)
  | register_watch (node : List Char)
  | unregister_watch (node : List Char)
  | dev_error (nodename : List Char) (err : Int)
  | dev_fatal (nodename : List Char) (err : Int)
  | call_read_otherend_details (nodename : List Char)
  | call_probe (nodename : List Char)
  | call_remove (nodename : List Char)
  | call_resume (nodename : List Char)
  | call_suspend (nodename : List Char)
  | call_suspend_cancel (nodename : List Char)
  | call_otherend_changed (nodename : List Char) (st : XenbusState)
  | complete (nodename : List Char)
  | wait_for_completion (nodename : List Char)
  | get_device (nodename : List Char)
  | put_device (nodename : List Char)
  | device_register (nodename : List Char)
  | device_unregister (nodename : List Char)
  | create_file (nodename : List Char) (attr : DevAttr)
  | remove_file (nodename : List Char) (attr : DevAttr)
  | kfree_xendev (nodename : List Char)
  | xs_directory (dir node : List Char)
  | xs_scanf_state (dir : List Char)
  | xs_read (dir node : List Char)
  | wait_for_backend (be : List Char) (expected : XenbusState)
  | driver_register (ids : List xenbus_device_id)
  | xb_init_comms
  | xs_suspend
  | xs_resume
  | xs_suspend_cancel
  | xenbus_backend_suspend
  | xenbus_backend_resume
  | xen_unplug_emulated_devices
deriving DecidableEq, Repr

/-- What the rest of the kernel answers when this file asks.  Each field
stands for a routine or constant that is declared outside `xenbus_probe.c`. -/
structure Env where
  /-- Size of a bus-id buffer (a constant of `xen/xenbus.h`). -/
  XEN_BUS_ID_SIZE : Nat
  /-- Kernel-wide `system_state`. -/
  system_state : Nat
  /-- Result of `is_initial_xendomain()`. -/
  is_initial_xendomain : Bool
  /-- Result of `xenbus_exists(XBT_NIL, path, "")`. -/
  xenbus_exists : List Char → Bool
  /-- Result of `xenbus_read_driver_state(path)`. -/
  xenbus_read_driver_state : List Char → XenbusState
  /-- Result of `xenbus_gather` for an id key and a path key under a
  directory: the return code, and the id and the path it stores when the
  return code is 0. -/
  xenbus_gather : List Char → List Char → List Char → Int × Int × List Char
  /-- Result of registering a watch on a node (0 on success). -/
  register_xenbus_watch : List Char → Int
  /-- Whether `kzalloc` of a device record fails. -/
  kzalloc_fails : Bool
  /-- Whether `kasprintf` fails. -/
  kasprintf_fails : Bool
  /-- Result of `device_register` for the device of a node. -/
  device_register : List Char → Int
  /-- Result of `device_create_file` for a device and an attribute. -/
  device_create_file : List Char → DevAttr → Int
  /-- Result of `xenbus_directory(XBT_NIL, dir, node, &n)`: 0 and the entries
  listed, or the error an `IS_ERR` pointer carries. -/
  xenbus_directory : List Char → List Char → Int × List (List Char)
  /-- Result of `driver_register` for the driver with a match table. -/
  driver_register : List xenbus_device_id → Int
  /-- Result of `xenbus_scanf(XBT_NIL, dir, "state", "%i", &v)`: the integer
  read when the call returns 1, `none` otherwise. -/
  xenbus_scanf_state : List Char → Option Int
  /-- Result of `xenbus_read(XBT_NIL, dir, node, NULL)`: the string read, or
  `none` for NULL or an error pointer. -/
  xenbus_read : List Char → List Char → Option (List Char)

/-- Value of `SYSTEM_RUNNING` in the kernel's `enum system_states`
(`SYSTEM_BOOTING` is 0; every later member is a phase of going down). -/
def SYSTEM_RUNNING : Nat := 1

/-- State threaded through the per-device operations: the device record and
the log of effects. -/
structure Sys where
  dev : xenbus_device
  log : List Event
deriving DecidableEq, Repr

/-- State threaded through the bus-wide operations: the devices registered on
the bus, in registration order (the order `bus_for_each_dev` visits them), and
the log of effects. -/
structure BusSt where
  devices : List xenbus_device
  log : List Event
deriving DecidableEq, Repr

/-- The record `struct xenbus_driver`.  A NULL callback is `none`.  A
device-class callback maps the device to its result code and to the local
state it leaves the device in.  `read_otherend_details` is bus-layer code
installed at registration and runs on the whole per-device state. -/
structure xenbus_driver where
  ids : List xenbus_device_id
  probe : Option (xenbus_device → xenbus_device_id → Int × XenbusState)
  remove : Option (xenbus_device → Int × XenbusState)
  suspend : Option (xenbus_device → Int × XenbusState)
  suspend_cancel : Option (xenbus_device → Int × XenbusState)
  resume : Option (xenbus_device → Int × XenbusState)
  otherend_changed : Option (xenbus_device → XenbusState → XenbusState)
  read_otherend_details : Sys → Int × Sys

/-- The record `struct xen_bus_type`.  Its `probe` function pointer takes the
descriptor itself as an argument and is therefore passed alongside the record
where it is called.  `get_bus_id` receives the buffer size and the node name
and yields its return code and the buffer content (`none`: never written). -/
structure xen_bus_type where
  root : List Char
  levels : Nat
  get_bus_id : Nat → List Char → Int × Option (List Char)
  error : Int

/-! ## Helpers of the store client and of the device core -/

/-- Modelled from the spec: xenbus_switch_state, defined in xenbus_client.c,
which is not among the sources.  Section 4.3: writing a new local state is a
single write into the device's own `state` key, and the record follows. -/
def xenbus_switch_state (st : XenbusState) (s : Sys) : Sys :=
  { dev := { s.dev with state := st },
    log := s.log ++ [Event.xs_write_state s.dev.nodename st] }

/-- Modelled from the spec: xenbus_dev_error, defined in xenbus_client.c, which
is not among the sources.  Section 4.1: a report that logs the failure. -/
def xenbus_dev_error (err : Int) (s : Sys) : Sys :=
  { s with log := s.log ++ [Event.dev_error s.dev.nodename err] }

/-- Modelled from the spec: xenbus_dev_fatal, defined in xenbus_client.c, which
is not among the sources.  Section 4.1: the single report every failure path
funnels through. -/
def xenbus_dev_fatal (err : Int) (s : Sys) : Sys :=
  { s with log := s.log ++ [Event.dev_fatal s.dev.nodename err] }

/-- Modelled from the spec: xenbus_frontend_closed, defined in xenbus_client.c,
which is not among the sources.  Section 4.2 step 3: drive the device to the
closed terminal state and release whoever waits on its completion signal. -/
def xenbus_frontend_closed (s : Sys) : Sys :=
  let s1 := xenbus_switch_state XenbusState.Closed s
  { s1 with log := s1.log ++ [Event.complete s1.dev.nodename] }

/-! ## Matching -/

/-- Source `match_device`: walk the table up to its sentinel (the entry with
an empty device type) and return the first entry of the device's type.  The
end of the list stands for the end of the array, which a well-formed table
never reaches. -/
def match_device : List xenbus_device_id → xenbus_device → Option xenbus_device_id
  | [], _ => none
  | arr :: rest, dev =>
    if arr.devicetype = [] then none
    else if strcmp arr.devicetype dev.devicetype = 0 then some arr
    else match_device rest dev

/-! ## Other-end details and watch -/

/-- Source `free_otherend_details`. -/
def free_otherend_details (s : Sys) : Sys :=
  { s with dev := { s.dev with otherend := none } }

/-- Source `free_otherend_watch`. -/
def free_otherend_watch (s : Sys) : Sys :=
  match s.dev.otherend_watch with
  | some node =>
    { dev := { s.dev with otherend_watch := none },
      log := s.log ++ [Event.unregister_watch node] }
  | none => s

/-- Source `xenbus_read_otherend_details`. -/
def xenbus_read_otherend_details (env : Env) (id_node path_node : List Char)
    (s : Sys) : Int × Sys :=
  let r := env.xenbus_gather s.dev.nodename id_node path_node
  let s0 : Sys :=
    { s with log := s.log ++ [Event.xs_gather s.dev.nodename id_node path_node] }
  if r.1 ≠ 0 then
    (r.1, xenbus_dev_fatal r.1 s0)
  else
    let s1 : Sys :=
      { s0 with dev := { s0.dev with otherend_id := r.2.1, otherend := some r.2.2 } }
    if strlen r.2.2 = 0 then
      (-ENOENT, free_otherend_details (xenbus_dev_fatal (-ENOENT) s1))
    else
      let s2 : Sys := { s1 with log := s1.log ++ [Event.xs_exists r.2.2] }
      if env.xenbus_exists r.2.2 = false then
        (-ENOENT, free_otherend_details (xenbus_dev_fatal (-ENOENT) s2))
      else
        (0, s2)

/-- Source `read_backend_details`. -/
def read_backend_details (env : Env) (s : Sys) : Int × Sys :=
  xenbus_read_otherend_details env "backend-id".toList "backend".toList s

/-- Source `talk_to_otherend`. -/
def talk_to_otherend (drv : xenbus_driver) (s : Sys) : Int × Sys :=
  let s1 := free_otherend_details (free_otherend_watch s)
  drv.read_otherend_details
    { s1 with log := s1.log ++ [Event.call_read_otherend_details s1.dev.nodename] }

/-- Source `watch_otherend`, through xenbus_watch_path2 (xenbus_client.c, not
among the sources; spec section 4.2: registers a watch on the `state` key
under the other-end path).  On failure no watch is left in the record.  A NULL
other-end path is formatted the way the kernel prints a NULL string. -/
def watch_otherend (env : Env) (s : Sys) : Int × Sys :=
  let node := (s.dev.otherend.getD "(null)".toList) ++ "/state".toList
  let err := env.register_xenbus_watch node
  if err ≠ 0 then
    (err, xenbus_dev_fatal err s)
  else
    (0, { dev := { s.dev with otherend_watch := some node },
          log := s.log ++ [Event.register_watch node] })

/-- Source `otherend_changed`, the callback of the other-end watch, fired with
the changed path `path` (`vec[XS_WATCH_PATH]`). -/
def otherend_changed (env : Env) (bus : xen_bus_type) (drv : xenbus_driver)
    (path : List Char) (s : Sys) : Sys :=
  match s.dev.otherend with
  | none => s
  | some oe =>
    if strncmp oe path (strlen oe) ≠ 0 then s
    else
      let state := env.xenbus_read_driver_state oe
      let s1 : Sys := { s with log := s.log ++ [Event.xs_read_state oe] }
      if env.system_state > SYSTEM_RUNNING then
        if bus.levels = 2 ∧ state = XenbusState.Closing then
          xenbus_frontend_closed s1
        else s1
      else
        match drv.otherend_changed with
        | some cb =>
          { dev := { s1.dev with state := cb s1.dev state },
            log := s1.log ++ [Event.call_otherend_changed s1.dev.nodename state] }
        | none => s1

/-! ## Probe, remove, shutdown, resume of one device -/

/-- The `fail:` exit of `xenbus_dev_probe`. -/
def xenbus_dev_probe_fail (err : Int) (s : Sys) : Int × Sys :=
  (-ENODEV, xenbus_switch_state XenbusState.Closed (xenbus_dev_error err s))

/-- Source `xenbus_dev_probe`. -/
def xenbus_dev_probe (env : Env) (drv : xenbus_driver) (s : Sys) : Int × Sys :=
  match drv.probe with
  | none => xenbus_dev_probe_fail (-ENODEV) s
  | some probe =>
    match match_device drv.ids s.dev with
    | none => xenbus_dev_probe_fail (-ENODEV) s
    | some id =>
      let r := talk_to_otherend drv s
      if r.1 ≠ 0 then (r.1, r.2)
      else
        let p := probe r.2.dev id
        let s2 : Sys :=
          { dev := { r.2.dev with state := p.2 },
            log := r.2.log ++ [Event.call_probe r.2.dev.nodename] }
        if p.1 ≠ 0 then xenbus_dev_probe_fail p.1 s2
        else
          let w := watch_otherend env s2
          if w.1 ≠ 0 then (w.1, w.2) else (0, w.2)

/-- Source `xenbus_dev_remove`. -/
def xenbus_dev_remove (drv : xenbus_driver) (s : Sys) : Int × Sys :=
  let s1 := free_otherend_watch s
  let s2 : Sys :=
    match drv.remove with
    | some remove =>
      { dev := { s1.dev with state := (remove s1.dev).2 },
        log := s1.log ++ [Event.call_remove s1.dev.nodename] }
    | none => s1
  (0, xenbus_switch_state XenbusState.Closed (free_otherend_details s2))

/-- Source `xenbus_dev_shutdown`.  `XENSTORE_DOMAIN_SHARES_THIS_KERNEL` is not
defined (its definition is commented out), so the early return is guarded by
`is_initial_xendomain()`.  The outcome of the bounded wait only selects a
diagnostic message. -/
def xenbus_dev_shutdown (env : Env) (s : Sys) : Sys :=
  if env.is_initial_xendomain then s
  else
    let s1 : Sys := { s with log := s.log ++ [Event.get_device s.dev.nodename] }
    if s1.dev.state ≠ XenbusState.Connected then
      { s1 with log := s1.log ++ [Event.put_device s1.dev.nodename] }
    else
      let s2 := xenbus_switch_state XenbusState.Closing s1
      if strcmp s2.dev.devicetype "vfb".toList = 0 then
        { s2 with log := s2.log ++ [Event.put_device s2.dev.nodename] }
      else
        { s2 with log := s2.log ++
            [Event.wait_for_completion s2.dev.nodename, Event.put_device s2.dev.nodename] }

/-- Source `resume_dev`.  The argument `drv` is `dev->driver` (NULL for an
unbound device). -/
def resume_dev (env : Env) (drv : Option xenbus_driver) (s : Sys) : Int × Sys :=
  match drv with
  | none => (0, s)
  | some drv =>
    let r := talk_to_otherend drv s
    if r.1 ≠ 0 then (r.1, r.2)
    else
      let s1 : Sys := { r.2 with dev := { r.2.dev with state := XenbusState.Initialising } }
      match drv.resume with
      | some resume =>
        let p := resume s1.dev
        let s2 : Sys :=
          { dev := { s1.dev with state := p.2 },
            log := s1.log ++ [Event.call_resume s1.dev.nodename] }
        if p.1 ≠ 0 then (p.1, s2)
        else
          let w := watch_otherend env s2
          if w.1 ≠ 0 then (w.1, w.2) else (0, w.2)
      | none =>
        let w := watch_otherend env s1
        if w.1 ≠ 0 then (w.1, w.2) else (0, w.2)

/-! ## Registry lookups and removal -/

/-- Source `cmp_dev`: the predicate of the lookup by node name. -/
def cmp_dev (xendev : xenbus_device) (nodename : List Char) : Bool :=
  strcmp xendev.nodename nodename = 0

/-- Source `xenbus_device_find`: the first registered device `cmp_dev`
accepts, with a reference taken on it. -/
def xenbus_device_find (nodename : List Char) (st : BusSt) :
    Option xenbus_device × BusSt :=
  match st.devices.find? (fun d => cmp_dev d nodename) with
  | some d => (some d, { st with log := st.log ++ [Event.get_device d.nodename] })
  | none => (none, st)

/-- Source `cleanup_dev`: the predicate of the removal sweep. -/
def cleanup_dev (xendev : xenbus_device) (nodename : List Char) : Bool :=
  let len := strlen nodename
  if strncmp xendev.nodename nodename len ≠ 0 then false
  else if strlen xendev.nodename > len ∧ xendev.nodename.get? len ≠ some '/' then false
  else true

/-- Source `xenbus_cleanup_devices`: the do-while loop.  Each round lets
`bus_for_each_dev` stop at the first device `cleanup_dev` accepts and
unregisters that device; the loop ends with the first round that finds none.
`device_unregister` belongs to the device core: it is logged and takes the
device off the list of the bus.  `fuel` bounds the number of rounds; `none`
means the bound was too small. -/
def xenbus_cleanup_devices : Nat → List Char → BusSt → Option BusSt
  | 0, _, _ => none
  | fuel + 1, path, st =>
    match st.devices.find? (fun d => cleanup_dev d path) with
    | none => some st
    | some d =>
      xenbus_cleanup_devices fuel path
        { devices := st.devices.eraseP (fun d => cleanup_dev d path),
          log := st.log ++ [Event.get_device d.nodename,
            Event.device_unregister d.nodename, Event.put_device d.nodename] }

/-! ## Creating a device record -/

/-- Apply `f` to the last element of a list. -/
def map_last {α : Type} (f : α → α) : List α → List α
  | [] => []
  | [x] => [f x]
  | x :: y :: ys => x :: map_last f (y :: ys)

/-- Device core `device_register`, once it succeeded: the device joins the
list of its bus at the tail. -/
def device_register (xendev : xenbus_device) (st : BusSt) : BusSt :=
  { devices := st.devices ++ [xendev],
    log := st.log ++ [Event.device_register xendev.nodename] }

/-- Device core `device_create_file`, once it succeeded, on the device
registered last. -/
def device_create_file (nodename : List Char) (attr : DevAttr) (st : BusSt) : BusSt :=
  { devices := map_last
      (fun d => { d with dev := { d.dev with files := d.dev.files ++ [attr] } }) st.devices,
    log := st.log ++ [Event.create_file nodename attr] }

/-- Device core `device_remove_file` on the device registered last. -/
def device_remove_file (nodename : List Char) (attr : DevAttr) (st : BusSt) : BusSt :=
  { devices := map_last
      (fun d => { d with dev := { d.dev with files := d.dev.files.erase attr } }) st.devices,
    log := st.log ++ [Event.remove_file nodename attr] }

/-- Source `xenbus_dev_release`, the release callback `xenbus_probe_node`
installs in the record (`xendev->dev.release`): it frees the record. -/
def xenbus_dev_release (nodename : List Char) (st : BusSt) : BusSt :=
  { st with log := st.log ++ [Event.kfree_xendev nodename] }

/-- Device core `device_unregister` as `xenbus_probe_node` calls it, on the
device registered last: the device leaves the list of its bus, and since
nothing else holds a reference on the record under construction, the reference
the device core drops at the end is the last one and the release callback of
the record runs. -/
def device_unregister (nodename : List Char) (st : BusSt) : BusSt :=
  xenbus_dev_release nodename
    { devices := st.devices.dropLast,
      log := st.log ++ [Event.device_unregister nodename] }

/-- The statement `kfree(xendev)` at the label `fail`. -/
def kfree_xendev (nodename : List Char) (st : BusSt) : BusSt :=
  { st with log := st.log ++ [Event.kfree_xendev nodename] }

/-- Source `xenbus_probe_node`.  The record under construction is the last
device of the bus from `device_register` on; the labels `fail_remove_devtype`,
`fail_remove_nodename`, `fail_unregister` and `fail` fall through one into the
next. -/
def xenbus_probe_node (env : Env) (bus : xen_bus_type) (type nodename : List Char)
    (st : BusSt) : Int × BusSt :=
  let state := env.xenbus_read_driver_state nodename
  let st0 : BusSt := { st with log := st.log ++ [Event.xs_read_state nodename] }
  if bus.error ≠ 0 then (bus.error, st0)
  else if state ≠ XenbusState.Initialising then (0, st0)
  else if env.kzalloc_fails then (-ENOMEM, st0)
  else
    let xendev : xenbus_device :=
      { nodename := nodename, devicetype := type, state := XenbusState.Initialising,
        otherend := none, otherend_id := 0, otherend_watch := none,
        dev := { bus_id := [], files := [] } }
    let r := bus.get_bus_id env.XEN_BUS_ID_SIZE nodename
    if r.1 ≠ 0 then
      (r.1, kfree_xendev nodename st0)
    else
      let xendev : xenbus_device :=
        { xendev with dev := { xendev.dev with bus_id := r.2.getD [] } }
      let e1 := env.device_register nodename
      if e1 ≠ 0 then
        (e1, kfree_xendev nodename st0)
      else
        let st1 := device_register xendev st0
        let e2 := env.device_create_file nodename DevAttr.nodename
        if e2 ≠ 0 then
          (e2, kfree_xendev nodename (device_unregister nodename st1))
        else
          let st2 := device_create_file nodename DevAttr.nodename st1
          let e3 := env.device_create_file nodename DevAttr.devtype
          if e3 ≠ 0 then
            (e3, kfree_xendev nodename (device_unregister nodename
              (device_remove_file nodename DevAttr.nodename st2)))
          else
            let st3 := device_create_file nodename DevAttr.devtype st2
            let e4 := env.device_create_file nodename DevAttr.modalias
            if e4 ≠ 0 then
              (e4, kfree_xendev nodename (device_unregister nodename
                (device_remove_file nodename DevAttr.nodename
                  (device_remove_file nodename DevAttr.devtype st3))))
            else
              (0, device_create_file nodename DevAttr.modalias st3)

/-- Replace the first occurrence of `c` by `r` (`*strchr(s, c) = r`). -/
def replace_first (c r : Char) : List Char → List Char
  | [] => []
  | x :: xs => if x = c then r :: xs else x :: replace_first c r xs

/-- Source `frontend_bus_id`: `device/<type>/<id>` becomes `<type>-<id>`.
`size` is `XEN_BUS_ID_SIZE`. -/
def frontend_bus_id (size : Nat) (nodename : List Char) : Int × Option (List Char) :=
  match strchr nodename '/' with
  | none => (-EINVAL, none)
  | some rest =>
    if strlen (rest.drop 1) ≥ size then (-EINVAL, none)
    else
      let bus_id := (rest.drop 1).take (size - 1)
      match strchr bus_id '/' with
      | none => (-EINVAL, some bus_id)
      | some _ => (0, some (replace_first '/' '-' bus_id))

/-! ## Change detection -/

/-- Source `char_count`. -/
def char_count : List Char → Char → Nat
  | [], _ => 0
  | x :: xs, c => (if x = c then 1 else 0) + char_count xs c

/-- The loop of `strsep_len`, at index `i` with `len` separators still to skip. -/
def strsep_len_loop : List Char → Char → Nat → Nat → Int
  | [], _, len, i => if len = 0 then (i : Int) else -ERANGE
  | x :: xs, c, len, i =>
    if x = c then
      match len with
      | 0 => (i : Int)
      | len + 1 => strsep_len_loop xs c len (i + 1)
    else strsep_len_loop xs c len (i + 1)

/-- Source `strsep_len`. -/
def strsep_len (str : List Char) (c : Char) (len : Nat) : Int :=
  strsep_len_loop str c len 0

/-- Source `xenbus_dev_changed`.  `fuel` bounds the rounds of the removal
sweep (see `xenbus_cleanup_devices`). -/
def xenbus_dev_changed (env : Env) (fuel : Nat) (node : List Char) (bus : xen_bus_type)
    (st : BusSt) : Option BusSt :=
  if bus.error ≠ 0 ∨ char_count node '/' < 2 then some st
  else
    let st1 : BusSt := { st with log := st.log ++ [Event.xs_exists node] }
    if env.xenbus_exists node = false then
      xenbus_cleanup_devices fuel node st1
    else
      let p := ((strchr node '/').getD []).drop 1
      let type := (p.take (strcspn p '/')).take (env.XEN_BUS_ID_SIZE - 1)
      let rootlen := strsep_len node '/' bus.levels
      if rootlen < 0 then some st1
      else if env.kasprintf_fails then some st1
      else
        let root := node.take rootlen.toNat
        match xenbus_device_find root st1 with
        | (none, st2) => some (xenbus_probe_node env bus type root st2).2
        | (some d, st2) =>
          some { st2 with log := st2.log ++ [Event.put_device d.nodename] }

/-! ## Enumeration -/

/-- Source `xenbus_probe_frontend`, the `probe` function of the frontend bus:
`device/<typename>/<name>`. -/
def xenbus_probe_frontend (env : Env) (bus : xen_bus_type) (type name : List Char)
    (st : BusSt) : Int × BusSt :=
  if strcmp type "console".toList = 0 then (0, st)
  else if env.kasprintf_fails then (-ENOMEM, st)
  else xenbus_probe_node env bus type (bus.root ++ '/' :: type ++ '/' :: name) st

/-- The `for` loop of `xenbus_probe_device_type` over the entries still to
visit: it breaks at the first entry whose probe returns an error. -/
def xenbus_probe_device_type_loop
    (probe : xen_bus_type → List Char → List Char → BusSt → Int × BusSt)
    (bus : xen_bus_type) (type : List Char) : List (List Char) → BusSt → Int × BusSt
  | [], st => (0, st)
  | name :: rest, st =>
    let r := probe bus type name st
    if r.1 ≠ 0 then r else xenbus_probe_device_type_loop probe bus type rest r.2

/-- Source `xenbus_probe_device_type`.  `probe` is `bus->probe`. -/
def xenbus_probe_device_type (env : Env)
    (probe : xen_bus_type → List Char → List Char → BusSt → Int × BusSt)
    (bus : xen_bus_type) (type : List Char) (st : BusSt) : Int × BusSt :=
  let dir := env.xenbus_directory bus.root type
  let st0 : BusSt := { st with log := st.log ++ [Event.xs_directory bus.root type] }
  if dir.1 ≠ 0 then (dir.1, st0)
  else xenbus_probe_device_type_loop probe bus type dir.2 st0

/-- The `for` loop of `xenbus_probe_devices` over the device classes still to
visit: it breaks at the first class whose enumeration returns an error. -/
def xenbus_probe_devices_loop (env : Env)
    (probe : xen_bus_type → List Char → List Char → BusSt → Int × BusSt)
    (bus : xen_bus_type) : List (List Char) → BusSt → Int × BusSt
  | [], st => (0, st)
  | type :: rest, st =>
    let r := xenbus_probe_device_type env probe bus type st
    if r.1 ≠ 0 then r else xenbus_probe_devices_loop env probe bus rest r.2

/-- Source `xenbus_probe_devices`.  `probe` is `bus->probe`. -/
def xenbus_probe_devices (env : Env)
    (probe : xen_bus_type → List Char → List Char → BusSt → Int × BusSt)
    (bus : xen_bus_type) (st : BusSt) : Int × BusSt :=
  if bus.error ≠ 0 then (bus.error, st)
  else
    let dir := env.xenbus_directory bus.root []
    let st0 : BusSt := { st with log := st.log ++ [Event.xs_directory bus.root []] }
    if dir.1 ≠ 0 then (dir.1, st0)
    else xenbus_probe_devices_loop env probe bus dir.2 st0

/-- Source `xenbus_register_driver_common`.  A successful `driver_register`
is an entry of the log. -/
def xenbus_register_driver_common (env : Env) (drv : xenbus_driver) (bus : xen_bus_type)
    (st : BusSt) : Int × BusSt :=
  if bus.error ≠ 0 then (bus.error, st)
  else
    let ret := env.driver_register drv.ids
    if ret ≠ 0 then (ret, st)
    else (ret, { st with log := st.log ++ [Event.driver_register drv.ids] })

/-! ## Suspend, resume and cancel over the frontend bus -/

/-- Source `suspend_dev`.  The argument `drv` is `dev->driver`.  The result
of the callback only selects a diagnostic message. -/
def suspend_dev (drv : Option xenbus_driver) (s : Sys) : Int × Sys :=
  match drv with
  | none => (0, s)
  | some drv =>
    match drv.suspend with
    | some suspend =>
      (0, { dev := { s.dev with state := (suspend s.dev).2 },
            log := s.log ++ [Event.call_suspend s.dev.nodename] })
    | none => (0, s)

/-- Source `suspend_cancel_dev`.  The argument `drv` is `dev->driver`.  The
result of the callback only selects a diagnostic message. -/
def suspend_cancel_dev (drv : Option xenbus_driver) (s : Sys) : Int × Sys :=
  match drv with
  | none => (0, s)
  | some drv =>
    match drv.suspend_cancel with
    | some suspend_cancel =>
      (0, { dev := { s.dev with state := (suspend_cancel s.dev).2 },
            log := s.log ++ [Event.call_suspend_cancel s.dev.nodename] })
    | none => (0, s)

/-- A device of a bus together with `dev->driver`, the driver it is bound to
(NULL when unbound). -/
structure bound_device where
  dev : xenbus_device
  driver : Option xenbus_driver

/-- Device core `bus_for_each_dev(bus, NULL, data, fn)`: `fn` is called on the
devices of the bus in order, and the iteration stops at the first device for
which it returns non-zero; that value is returned.  The devices come back in
the state `fn` left them in. -/
def bus_for_each_dev (fn : Option xenbus_driver → Sys → Int × Sys) :
    List bound_device → List Event → Int × List bound_device × List Event
  | [], log => (0, [], log)
  | b :: rest, log =>
    let r := fn b.driver { dev := b.dev, log := log }
    if r.1 ≠ 0 then (r.1, { b with dev := r.2.dev } :: rest, r.2.log)
    else
      let t := bus_for_each_dev fn rest r.2.log
      (t.1, { b with dev := r.2.dev } :: t.2.1, t.2.2)

/-- Source `xenbus_suspend`.  `bus` is the descriptor `xenbus_frontend` and
`devs` are the devices of that bus. -/
def xenbus_suspend (bus : xen_bus_type) (devs : List bound_device) (log : List Event) :
    List bound_device × List Event :=
  let r := if bus.error = 0 then (bus_for_each_dev suspend_dev devs log).2 else (devs, log)
  (r.1, r.2 ++ [Event.xenbus_backend_suspend, Event.xs_suspend])

/-- Source `xenbus_resume`.  `bus` is the descriptor `xenbus_frontend` and
`devs` are the devices of that bus. -/
def xenbus_resume (env : Env) (bus : xen_bus_type) (devs : List bound_device)
    (log : List Event) : List bound_device × List Event :=
  let log0 := log ++ [Event.xb_init_comms, Event.xs_resume]
  let r := if bus.error = 0 then (bus_for_each_dev (resume_dev env) devs log0).2
    else (devs, log0)
  (r.1, r.2 ++ [Event.xenbus_backend_resume, Event.xen_unplug_emulated_devices])

/-- Source `xenbus_suspend_cancel`.  `bus` is the descriptor `xenbus_frontend`
and `devs` are the devices of that bus. -/
def xenbus_suspend_cancel (bus : xen_bus_type) (devs : List bound_device)
    (log : List Event) : List bound_device × List Event :=
  let log0 := log ++ [Event.xs_suspend_cancel]
  let r := if bus.error = 0 then (bus_for_each_dev suspend_cancel_dev devs log0).2
    else (devs, log0)
  (r.1, r.2 ++ [Event.xenbus_backend_resume])

/-! ## Reset of the frontends after a redeployed store -/

/-- Source `xenbus_reset_wait_for_backend`: the wait of at most five seconds
for the backend state `expected`; its outcome only selects a message. -/
def xenbus_reset_wait_for_backend (be : List Char) (expected : XenbusState)
    (log : List Event) : List Event :=
  log ++ [Event.wait_for_backend be expected]

/-- The statements under `case XenbusStateClosed:` of `xenbus_reset_frontend`. -/
def xenbus_reset_frontend_case_Closed (fe be : List Char) (log : List Event) : List Event :=
  xenbus_reset_wait_for_backend be XenbusState.InitWait
    (log ++ [Event.xs_write_state fe XenbusState.Initialising])

/-- The statements under `case XenbusStateClosing:`, which fall through into
the next label. -/
def xenbus_reset_frontend_case_Closing (fe be : List Char) (log : List Event) : List Event :=
  xenbus_reset_frontend_case_Closed fe be
    (xenbus_reset_wait_for_backend be XenbusState.Closed
      (log ++ [Event.xs_write_state fe XenbusState.Closed]))

/-- The statements under `case XenbusStateConnected:`, which fall through into
the next label. -/
def xenbus_reset_frontend_case_Connected (fe be : List Char) (log : List Event) :
    List Event :=
  xenbus_reset_frontend_case_Closing fe be
    (xenbus_reset_wait_for_backend be XenbusState.Closing
      (log ++ [Event.xs_write_state fe XenbusState.Closing]))

/-- Source `xenbus_reset_frontend`.  `be_state` is the integer read from the
store. -/
def xenbus_reset_frontend (env : Env) (fe be : List Char) (be_state : Int)
    (log : List Event) : List Event :=
  if env.kasprintf_fails then log
  else
    let node := be ++ "/state".toList
    let l0 := log ++ [Event.register_watch node]
    let l1 :=
      if be_state = XenbusState.Connected.toInt then
        xenbus_reset_frontend_case_Connected fe be l0
      else if be_state = XenbusState.Closing.toInt then
        xenbus_reset_frontend_case_Closing fe be l0
      else if be_state = XenbusState.Closed.toInt then
        xenbus_reset_frontend_case_Closed fe be l0
      else l0
    l1 ++ [Event.unregister_watch node]

/-- Source `xenbus_check_frontend`. -/
def xenbus_check_frontend (env : Env) (cls dev : List Char) (log : List Event) :
    List Event :=
  if env.kasprintf_fails then log
  else
    let frontend := "device/".toList ++ cls ++ '/' :: dev
    let l0 := log ++ [Event.xs_scanf_state frontend]
    match env.xenbus_scanf_state frontend with
    | none => l0
    | some fe_state =>
      if fe_state = XenbusState.Connected.toInt ∨ fe_state = XenbusState.Closed.toInt then
        let l1 := l0 ++ [Event.xs_read frontend "backend".toList]
        match env.xenbus_read frontend "backend".toList with
        | none => l1
        | some backend =>
          let l2 := l1 ++ [Event.xs_scanf_state backend]
          match env.xenbus_scanf_state backend with
          | some be_state => xenbus_reset_frontend env frontend backend be_state l2
          | none => l2
      else l0

/-- Source `xenbus_reset_state`. -/
def xenbus_reset_state (env : Env) (log : List Event) : List Event :=
  let devclass := env.xenbus_directory "device".toList []
  let l0 := log ++ [Event.xs_directory "device".toList []]
  if devclass.1 ≠ 0 then l0
  else
    devclass.2.foldl
      (fun l cls =>
        let dev := env.xenbus_directory "device".toList cls
        let l1 := l ++ [Event.xs_directory "device".toList cls]
        if dev.1 ≠ 0 then l1
        else dev.2.foldl (fun l2 d => xenbus_check_frontend env cls d l2) l1)
      l0

/-! ## The reset in the words of the spec -/

/-- The ordered list of reset steps as the spec words it (design note on the
fall-through switch): the state written to the frontend, and the backend state
then awaited. -/
def reset_steps : List (XenbusState × XenbusState) :=
  [(XenbusState.Closing, XenbusState.Closing),
   (XenbusState.Closed, XenbusState.Closed),
   (XenbusState.Initialising, XenbusState.InitWait)]

/-- Number of steps skipped for a backend state read from the store: none for
Connected (4), one for Closing (5), two for Closed (6), all three otherwise. -/
def reset_first_step (be_state : Int) : Nat :=
  if be_state = 4 then 0 else if be_state = 5 then 1 else if be_state = 6 then 2 else 3

/-- Effects of running a list of steps in order: for each step, the write of
the frontend state, then the bounded wait for the backend state. -/
def run_reset_steps (fe be : List Char) : List (XenbusState × XenbusState) → List Event
  | [] => []
  | step :: rest =>
    Event.xs_write_state fe step.1 :: Event.wait_for_backend be step.2 ::
      run_reset_steps fe be rest

/-! ## Paths in the words of the spec -/

/-- The invariant of spec section 3: a registered other-end watch implies a
known other-end path. -/
def otherend_invariant (d : xenbus_device) : Prop :=
  d.otherend_watch ≠ none → d.otherend ≠ none

instance otherend_invariant_decidable (d : xenbus_device) : Decidable (otherend_invariant d) := by
  unfold otherend_invariant
  exact inferInstance

/-! ## Concrete data used to exercise the theorems -/

/-- A device record as `xenbus_probe_node` creates it, in a given state. -/
def mk_dev (nodename devicetype : List Char) (state : XenbusState) : xenbus_device :=
  { nodename := nodename, devicetype := devicetype, state := state,
    otherend := none, otherend_id := 0, otherend_watch := none,
    dev := { bus_id := [], files := [] } }

/-- An environment in which the system is running in an unprivileged domain,
every path exists, every state read is InitWait and nothing fails. -/
def env_running : Env :=
  { XEN_BUS_ID_SIZE := 20
    system_state := SYSTEM_RUNNING
    is_initial_xendomain := false
    xenbus_exists := fun _ => true
    xenbus_read_driver_state := fun _ => XenbusState.InitWait
    xenbus_gather := fun _ _ _ => (0, 0, "backend/vbd/0/51712".toList)
    register_xenbus_watch := fun _ => 0
    kzalloc_fails := false
    kasprintf_fails := false
    device_register := fun _ => 0
    device_create_file := fun _ _ => 0
    xenbus_directory := fun _ _ => (0, [])
    driver_register := fun _ => 0
    xenbus_scanf_state := fun _ => none
    xenbus_read := fun _ _ => none }

/-- The same environment after the store lost every path. -/
def env_gone : Env := { env_running with xenbus_exists := fun _ => false }

/-- The frontend bus descriptor once its registration succeeded
(`error` cleared). -/
def bus_frontend : xen_bus_type :=
  { root := "device".toList, levels := 2, get_bus_id := frontend_bus_id, error := 0 }

/-- A bus with three network devices: an instance, an entry below it and a
sibling whose name merely starts with the same characters. -/
def st_vifs : BusSt :=
  { devices := [mk_dev "device/vif/1".toList "vif".toList XenbusState.Connected,
                mk_dev "device/vif/10".toList "vif".toList XenbusState.Connected,
                mk_dev "device/vif/1/sub".toList "vif".toList XenbusState.Connected],
    log := [] }

/-- A block-device frontend driver.  Its callbacks leave the local state as it
is, except `otherend_changed`, which answers a peer in InitWait by moving to
Initialised. -/
def drv_vbd : xenbus_driver :=
  { ids := [{ devicetype := "vbd".toList }, { devicetype := [] }]
    probe := some (fun d _ => (0, d.state))
    remove := some (fun d => (0, d.state))
    suspend := none
    suspend_cancel := none
    resume := none
    otherend_changed :=
      some (fun d st => if st = XenbusState.InitWait then XenbusState.Initialised else d.state)
    read_otherend_details := read_backend_details env_running }

/-- A driver whose `otherend_changed` callback moves the local state one step
further at every call, whatever it was told before. -/
def drv_stepper : xenbus_driver :=
  { drv_vbd with
    otherend_changed := some (fun d _ =>
      match d.state with
      | XenbusState.Initialising => XenbusState.Initialised
      | XenbusState.Initialised => XenbusState.Connected
      | x => x) }

/-- The block device `device/vbd/51712`, bound, watching its backend. -/
def dev_vbd : xenbus_device :=
  { mk_dev "device/vbd/51712".toList "vbd".toList XenbusState.Initialising with
    otherend := some "backend/vbd/0/51712".toList
    otherend_watch := some "backend/vbd/0/51712/state".toList }

/-- The block device `device/vbd/5171`, whose backend path is a proper prefix
of the backend path of `device/vbd/51713`. -/
def dev_5171 : xenbus_device :=
  { mk_dev "device/vbd/5171".toList "vbd".toList XenbusState.Initialising with
    otherend := some "backend/vbd/0/5171".toList
    otherend_watch := some "backend/vbd/0/5171/state".toList }

/-- An environment in which the `backend` key of every device holds the empty
string. -/
def env_empty_backend : Env := { env_running with xenbus_gather := fun _ _ _ => (0, 0, []) }

/-- A driver whose match table names `vif` only after the sentinel. -/
def drv_late_entry : xenbus_driver :=
  { drv_vbd with
    ids := [{ devicetype := "vbd".toList }, { devicetype := [] },
            { devicetype := "vif".toList }] }

/-- The network device `device/vif/0`, not yet bound. -/
def dev_vif : xenbus_device :=
  mk_dev "device/vif/0".toList "vif".toList XenbusState.Initialising

/-- An environment in which the `backend` keys cannot be read. -/
def env_no_backend : Env :=
  { env_running with xenbus_gather := fun _ _ _ => (-ENOENT, 0, []) }

/-- The block-device frontend driver in the environment `env_no_backend`. -/
def drv_vbd_no_backend : xenbus_driver :=
  { drv_vbd with read_otherend_details := read_backend_details env_no_backend }

/-- The block device `device/vbd/51712` as created, not yet bound. -/
def dev_vbd_new : xenbus_device :=
  mk_dev "device/vbd/51712".toList "vbd".toList XenbusState.Initialising

/-- The network device `device/vif/0`, connected to its backend. -/
def dev_vif_connected : xenbus_device :=
  mk_dev "device/vif/0".toList "vif".toList XenbusState.Connected

/-- The running environment seen from the initial domain. -/
def env_dom0 : Env := { env_running with is_initial_xendomain := true }

/-- The virtual frame buffer `device/vfb/0`, connected to its backend. -/
def dev_vfb_connected : xenbus_device :=
  mk_dev "device/vfb/0".toList "vfb".toList XenbusState.Connected

/-- The running environment once the system is halting (`SYSTEM_HALT`), with
every peer in state Closing. -/
def env_halting : Env :=
  { env_running with
    system_state := 2
    xenbus_read_driver_state := fun _ => XenbusState.Closing }

/-- The running environment with every device node freshly announced (state
Initialising in the store). -/
def env_new : Env :=
  { env_running with xenbus_read_driver_state := fun _ => XenbusState.Initialising }

/-- The environment `env_new` with a device core that cannot create the
`modalias` attribute. -/
def env_modalias_fails : Env :=
  { env_new with
    device_create_file := fun _ a => if a = DevAttr.modalias then -ENOMEM else 0 }

/-- The frontend bus descriptor as it is before its registration succeeded:
`error` still holds -ENODEV. -/
def bus_frontend_failed : xen_bus_type := { bus_frontend with error := -ENODEV }

/-- A bus with the block device `device/vbd/51712` registered. -/
def st_one_vbd : BusSt := { devices := [dev_vbd], log := [] }

/-- A store with two device classes under `device`: the listing of `vbd`
fails, and `vif` holds the freshly announced instance `0`. -/
def env_vbd_unlistable : Env :=
  { env_new with
    xenbus_directory := fun _ node =>
      if node = [] then (0, ["vbd".toList, "vif".toList])
      else if node = "vbd".toList then (-ENOENT, [])
      else (0, ["0".toList]) }

/-- The bus state before anything was registered. -/
def st_empty : BusSt := { devices := [], log := [] }

/-- A store in which the `backend` keys of `device/vbd/51712` cannot be read
and those of every other device can. -/
def env_vbd_backend_missing : Env :=
  { env_running with
    xenbus_gather := fun dir _ _ =>
      if dir = "device/vbd/51712".toList then (-ENOENT, 0, [])
      else (0, 0, "backend/vif/0/0".toList) }

/-- A frontend driver with a `resume` callback that succeeds, in the
environment `env_vbd_backend_missing`. -/
def drv_resumable : xenbus_driver :=
  { drv_vbd with
    resume := some (fun d => (0, d.state))
    read_otherend_details := read_backend_details env_vbd_backend_missing }

/-- The frontend bus with two bound devices: the block device first, the
network device second. -/
def devs_vbd_vif : List bound_device :=
  [{ dev := dev_vbd, driver := some drv_resumable },
   { dev := dev_vif_connected, driver := some drv_resumable }]

/-- A store found after a kexec: every `state` key reads Closed (6) and the
backend of every frontend is `backend/vif/0/0`. -/
def env_after_kexec : Env :=
  { env_running with
    xenbus_scanf_state := fun _ => some 6
    xenbus_read := fun _ _ => some "backend/vif/0/0".toList }

theorem strncmp_eq_zero_iff (a b : List Char) : strncmp a b b.length = 0 ↔ b <+: a := by
  induction b generalizing a with
  | nil => simp [strncmp]
  | cons y ys ih =>
    cases a with
    | nil => simp [strncmp]
    | cons x xs =>
      simp only [List.length_cons, strncmp]
      by_cases h : x = y
      · subst h
        simp [ih]
      · have h2 : ¬ y = x := fun e => h e.symm
        simp [h, h2]
        split <;> simp

theorem strncmp_self_length_eq_zero_iff (a b : List Char) :
    strncmp a b a.length = 0 ↔ a <+: b := by
  induction a generalizing b with
  | nil => simp [strncmp]
  | cons x xs ih =>
    cases b with
    | nil => simp [strncmp]
    | cons y ys =>
      simp only [List.length_cons, strncmp]
      by_cases h : x = y
      · subst h
        simp [ih]
      · simp [h]
        split <;> simp

theorem strcmp_eq_zero_iff (a b : List Char) : strcmp a b = 0 ↔ a = b := by
  induction a generalizing b with
  | nil => cases b <;> simp [strcmp]
  | cons x xs ih =>
    cases b with
    | nil => simp [strcmp]
    | cons y ys =>
      simp only [strcmp]
      by_cases h : x = y
      · subst h
        simp [ih]
      · simp [h]
        split <;> simp


theorem cleanup_dev_iff (d : xenbus_device) (path : List Char) :
    cleanup_dev d path = true ↔
      (d.nodename = path ∨ (path ++ ['/']) <+: d.nodename) := by
  simp only [cleanup_dev, strlen]
  by_cases hp : path <+: d.nodename
  · have h0 : strncmp d.nodename path path.length = 0 := (strncmp_eq_zero_iff _ _).2 hp
    obtain ⟨t, ht⟩ := hp
    rw [h0, ← ht]
    cases t with
    | nil => simp
    | cons c t =>
      have hget : (path ++ c :: t).get? path.length = some c := by
        rw [List.get?_eq_getElem?, List.getElem?_append_right (le_refl _)]
        simp
      simp only [hget]
      by_cases hc : c = '/'
      · subst hc
        simp
      · have hc2 : ¬ ('/' = c) := fun e => hc e.symm
        simp [hc, List.prefix_append_right_inj, hc2]
  · have h0 : strncmp d.nodename path path.length ≠ 0 :=
      fun e => hp ((strncmp_eq_zero_iff _ _).1 e)
    rw [if_pos h0]
    simp only [Bool.false_eq_true, false_iff, not_or]
    constructor
    · intro e
      exact hp (e ▸ List.prefix_refl _)
    · intro e
      exact hp ((List.prefix_append path ['/']).trans e)

theorem filter_eraseP_not {α : Type} (p : α → Bool) (l : List α) :
    (l.eraseP p).filter (fun a => !p a) = l.filter (fun a => !p a) := by
  induction l with
  | nil => rfl
  | cons a l ih =>
    by_cases h : p a = true
    · simp [List.eraseP_cons, h]
    · simp [List.eraseP_cons, h, List.filter_cons, ih]

theorem xenbus_cleanup_devices_spec (fuel : Nat) (path : List Char) (st : BusSt)
    (hf : st.devices.length < fuel) :
    ∃ st2, xenbus_cleanup_devices fuel path st = some st2 ∧
      st2.devices = st.devices.filter (fun d => !cleanup_dev d path) := by
  induction fuel generalizing st with
  | zero => omega
  | succ n ih =>
    unfold xenbus_cleanup_devices
    cases hfind : st.devices.find? (fun d => cleanup_dev d path) with
    | none =>
      refine ⟨st, rfl, ?_⟩
      rw [List.find?_eq_none] at hfind
      symm
      rw [List.filter_eq_self]
      intro a ha
      simpa using hfind a ha
    | some d =>
      simp only
      have hmem : d ∈ st.devices := List.mem_of_find?_eq_some hfind
      have hpd : cleanup_dev d path = true := by
        have := List.find?_some hfind
        simpa using this
      have hlen : (st.devices.eraseP (fun d => cleanup_dev d path)).length < n := by
        rw [List.length_eraseP_of_mem hmem hpd]
        have : 0 < st.devices.length := List.length_pos_of_mem hmem
        omega
      obtain ⟨st2, h1, h2⟩ := ih
        { devices := st.devices.eraseP (fun d => cleanup_dev d path),
          log := st.log ++ [Event.get_device d.nodename,
            Event.device_unregister d.nodename, Event.put_device d.nodename] } hlen
      refine ⟨st2, h1, ?_⟩
      rw [h2]
      exact filter_eraseP_not _ _


/-! ## Change detection: claims C1 and C2 -/

/-- C1: for every bus and every path with fewer than two separators,
`xenbus_dev_changed` returns the bus state it was given: the log is unchanged
(no store query, no unregistration, no probe) and so is the list of
registered devices. -/
theorem xenbus_dev_changed_shallow_noop (env : Env) (fuel : Nat) (node : List Char)
    (bus : xen_bus_type) (st : BusSt) (hshallow : char_count node '/' < 2) :
    xenbus_dev_changed env fuel node bus st = some st := by
  simp [xenbus_dev_changed, hshallow]

/-- C1 on the path `device/vif`, which has one separator. -/
theorem xenbus_dev_changed_shallow_noop_witness :
    char_count "device/vif".toList '/' < 2 ∧
      xenbus_dev_changed env_gone 0 "device/vif".toList bus_frontend st_vifs = some st_vifs :=
  ⟨by decide, xenbus_dev_changed_shallow_noop env_gone 0 "device/vif".toList bus_frontend
    st_vifs (by decide)⟩

/-- C2: on a bus without error, for a path with at least two separators that
no longer exists in the store, `xenbus_dev_changed` terminates (any bound on
the rounds above the number of registered devices is enough) and leaves
registered exactly the devices whose node path is neither the path itself nor
the path followed by a separator and a suffix, in their original order. -/
theorem xenbus_dev_changed_removes_subtree (env : Env) (fuel : Nat) (node : List Char)
    (bus : xen_bus_type) (st : BusSt) (herr : bus.error = 0)
    (hdepth : 2 ≤ char_count node '/') (hgone : env.xenbus_exists node = false)
    (hfuel : st.devices.length < fuel) :
    ∃ st2, xenbus_dev_changed env fuel node bus st = some st2 ∧
      st2.devices = st.devices.filter
        (fun d => decide (¬ (d.nodename = node ∨ (node ++ ['/']) <+: d.nodename))) := by
  have hnot : ¬ char_count node '/' < 2 := by omega
  obtain ⟨st2, h1, h2⟩ := xenbus_cleanup_devices_spec fuel node
    { st with log := st.log ++ [Event.xs_exists node] } hfuel
  refine ⟨st2, ?_, ?_⟩
  · simp [xenbus_dev_changed, herr, hnot, hgone, h1]
  · rw [h2]
    apply List.filter_congr
    intro d _
    by_cases h : cleanup_dev d node = true
    · have h3 := (cleanup_dev_iff d node).1 h
      simp [h, h3]
    · have h3 : ¬ (d.nodename = node ∨ (node ++ ['/']) <+: d.nodename) :=
        fun e => h ((cleanup_dev_iff d node).2 e)
      simp only [Bool.not_eq_true] at h
      simp [h, h3]

/-- C2 on the removal of `device/vif/1`: the instance and the entry below it go,
the sibling `device/vif/10` stays. -/
theorem xenbus_dev_changed_removes_subtree_witness :
    ∃ st2, xenbus_dev_changed env_gone 4 "device/vif/1".toList bus_frontend st_vifs = some st2 ∧
      st2.devices = [mk_dev "device/vif/10".toList "vif".toList XenbusState.Connected] := by
  obtain ⟨st2, h1, h2⟩ := xenbus_dev_changed_removes_subtree env_gone 4
    "device/vif/1".toList bus_frontend st_vifs (by decide) (by decide) (by decide) (by decide)
  exact ⟨st2, h1, by rw [h2]; decide⟩

/-! ## The other-end watch callback: claims C3, C4 and C5 -/

/-- C3: for a driver with an `otherend_changed` callback, while the system is
not past its running phase, the watch callback either finds the other-end path
set and a prefix of the changed path, and then reads the peer state at that
path and invokes the driver callback once with it, or finds it unset or not a
prefix, and then returns the state it was given (no store read, no
callback). -/
theorem otherend_changed_forwards_iff_prefix (env : Env) (bus : xen_bus_type)
    (drv : xenbus_driver) (path : List Char) (s : Sys)
    (cb : xenbus_device → XenbusState → XenbusState)
    (hcb : drv.otherend_changed = some cb) (hrun : env.system_state ≤ SYSTEM_RUNNING) :
    (∃ oe, s.dev.otherend = some oe ∧ oe <+: path ∧
        otherend_changed env bus drv path s =
          { dev := { s.dev with state := cb s.dev (env.xenbus_read_driver_state oe) },
            log := s.log ++ [Event.xs_read_state oe,
              Event.call_otherend_changed s.dev.nodename (env.xenbus_read_driver_state oe)] })
    ∨ ((∀ oe, s.dev.otherend = some oe → ¬ oe <+: path) ∧
        otherend_changed env bus drv path s = s) := by
  have hnot : ¬ env.system_state > SYSTEM_RUNNING := by omega
  cases hoe : s.dev.otherend with
  | none =>
    right
    refine ⟨?_, ?_⟩
    · intro oe h
      cases h
    · simp [otherend_changed, hoe]
  | some oe =>
    by_cases hp : oe <+: path
    · left
      refine ⟨oe, rfl, hp, ?_⟩
      have h0 : strncmp oe path (strlen oe) = 0 :=
        (strncmp_self_length_eq_zero_iff oe path).2 hp
      simp [otherend_changed, hoe, h0, hnot, hcb]
    · right
      have h0 : strncmp oe path (strlen oe) ≠ 0 :=
        fun e => hp ((strncmp_self_length_eq_zero_iff oe path).1 e)
      refine ⟨?_, ?_⟩
      · intro oe2 h
        cases h
        exact hp
      · simp [otherend_changed, hoe, h0]

/-- C3 on Scenario B: the state key of the peer of `device/vbd/51712` changes and
the driver callback is invoked once, with InitWait. -/
theorem otherend_changed_forwards_iff_prefix_witness :
    (otherend_changed env_running bus_frontend drv_vbd "backend/vbd/0/51712/state".toList
        { dev := dev_vbd, log := [] }).log =
      [Event.xs_read_state "backend/vbd/0/51712".toList,
       Event.call_otherend_changed "device/vbd/51712".toList XenbusState.InitWait] := by
  rcases otherend_changed_forwards_iff_prefix env_running bus_frontend drv_vbd
    "backend/vbd/0/51712/state".toList { dev := dev_vbd, log := [] }
    (fun d st => if st = XenbusState.InitWait then XenbusState.Initialised else d.state)
    rfl (by decide) with ⟨oe, h1, _, h3⟩ | ⟨h1, _⟩
  · rw [h3]
    cases h1
    rfl
  · exact absurd (by decide) (h1 "backend/vbd/0/51712".toList rfl)

/-- C4, as stated, fails: the other-end path `backend/vbd/0/5171` differs from
the peer path `backend/vbd/0/51713`, yet a change of the state key of the
latter reaches the driver callback of the device of the former. -/
theorem otherend_changed_other_peer_counterexample :
    "backend/vbd/0/5171".toList ≠ "backend/vbd/0/51713".toList ∧
      Event.call_otherend_changed "device/vbd/5171".toList XenbusState.InitWait ∈
        (otherend_changed env_running bus_frontend drv_vbd
          ("backend/vbd/0/51713".toList ++ "/state".toList)
          { dev := dev_5171, log := [] }).log := by
  decide

/-- C4, amended: when the other-end path P of the device is not a string
prefix of the changed path Q + "/state", the watch callback returns the state
it was given, so the driver callback is not invoked (in any phase and for any
driver). -/
theorem otherend_changed_ignores_non_prefix (env : Env) (bus : xen_bus_type)
    (drv : xenbus_driver) (P Q : List Char) (s : Sys)
    (hP : s.dev.otherend = some P) (hnp : ¬ P <+: Q ++ "/state".toList) :
    otherend_changed env bus drv (Q ++ "/state".toList) s = s := by
  have h0 : strncmp P (Q ++ "/state".toList) (strlen P) ≠ 0 :=
    fun e => hnp ((strncmp_self_length_eq_zero_iff P _).1 e)
  unfold otherend_changed
  rw [hP]
  exact if_pos h0

/-- C4, amended, on Scenario B: a change of `backend/vbd/0/51713/state` leaves the
device whose peer is `backend/vbd/0/51712` untouched. -/
theorem otherend_changed_ignores_non_prefix_witness :
    otherend_changed env_running bus_frontend drv_vbd
        ("backend/vbd/0/51713".toList ++ "/state".toList) { dev := dev_vbd, log := [] } =
      { dev := dev_vbd, log := [] } :=
  otherend_changed_ignores_non_prefix env_running bus_frontend drv_vbd
    "backend/vbd/0/51712".toList "backend/vbd/0/51713".toList { dev := dev_vbd, log := [] }
    rfl (by decide)

/-- C5, as stated, fails: with the peer state unchanged in the store, a second
invocation of the watch callback moves the local state of the device again
when the driver callback is not idempotent. -/
theorem otherend_changed_twice_counterexample :
    (otherend_changed env_running bus_frontend drv_stepper "backend/vbd/0/51712/state".toList
        { dev := dev_vbd, log := [] }).dev.state = XenbusState.Initialised ∧
    (otherend_changed env_running bus_frontend drv_stepper "backend/vbd/0/51712/state".toList
        (otherend_changed env_running bus_frontend drv_stepper
          "backend/vbd/0/51712/state".toList { dev := dev_vbd, log := [] })).dev.state =
      XenbusState.Connected := by
  decide

/-- C5, amended: when the driver callback is idempotent (called again with the
same peer state on the device it produced, it keeps the local state), two
invocations of the watch callback in succession, with the store unchanged,
leave the same device record (local state and other-end watch included) as
one invocation. -/
theorem otherend_changed_twice_of_idempotent_callback (env : Env) (bus : xen_bus_type)
    (drv : xenbus_driver) (path : List Char) (s : Sys)
    (hidem : ∀ cb, drv.otherend_changed = some cb →
      ∀ d st, cb { d with state := cb d st } st = cb d st) :
    (otherend_changed env bus drv path (otherend_changed env bus drv path s)).dev =
      (otherend_changed env bus drv path s).dev := by
  cases hoe : s.dev.otherend with
  | none => simp [otherend_changed, hoe]
  | some oe =>
    by_cases h0 : strncmp oe path (strlen oe) = 0
    · by_cases hph : env.system_state > SYSTEM_RUNNING
      · by_cases hcl : bus.levels = 2 ∧ env.xenbus_read_driver_state oe = XenbusState.Closing
        · simp [otherend_changed, hoe, h0, hph, hcl, xenbus_frontend_closed,
            xenbus_switch_state]
        · simp [otherend_changed, hoe, h0, hph, hcl]
      · cases hcb : drv.otherend_changed with
        | none => simp [otherend_changed, hoe, h0, hph, hcb]
        | some cb =>
          have hi := hidem cb hcb s.dev (env.xenbus_read_driver_state oe)
          rw [hoe] at hi
          simp [otherend_changed, hoe, h0, hph, hcb, hi]
    · simp [otherend_changed, hoe, h0]

/-- C5, amended, on the block-device driver, whose callback is idempotent. -/
theorem otherend_changed_twice_of_idempotent_callback_witness :
    (otherend_changed env_running bus_frontend drv_vbd "backend/vbd/0/51712/state".toList
        (otherend_changed env_running bus_frontend drv_vbd "backend/vbd/0/51712/state".toList
          { dev := dev_vbd, log := [] })).dev =
      (otherend_changed env_running bus_frontend drv_vbd "backend/vbd/0/51712/state".toList
        { dev := dev_vbd, log := [] }).dev :=
  otherend_changed_twice_of_idempotent_callback env_running bus_frontend drv_vbd
    "backend/vbd/0/51712/state".toList { dev := dev_vbd, log := [] }
    (fun cb h d st => by
      cases h
      by_cases hst : st = XenbusState.InitWait <;> simp [hst])

/-! ## The other-end fields: claim C6 -/

theorem snd_ite_same {α β : Type} (c : Prop) [Decidable c] (a b : α) (x : β) :
    (if c then (a, x) else (b, x)).2 = x := by
  split_ifs <;> rfl

theorem otherend_invariant_of_no_watch (d : xenbus_device) (h : d.otherend_watch = none) :
    otherend_invariant d :=
  fun hw => absurd h hw

theorem otherend_invariant_state (d : xenbus_device) (st : XenbusState)
    (h : otherend_invariant d) : otherend_invariant { d with state := st } :=
  h

theorem xenbus_read_otherend_details_watch (env : Env) (id_node path_node : List Char)
    (x : Sys) :
    (xenbus_read_otherend_details env id_node path_node x).2.dev.otherend_watch =
      x.dev.otherend_watch := by
  simp only [xenbus_read_otherend_details, xenbus_dev_fatal, free_otherend_details]
  split_ifs <;> rfl

theorem xenbus_read_otherend_details_ok (env : Env) (id_node path_node : List Char)
    (x : Sys) (h : (xenbus_read_otherend_details env id_node path_node x).1 = 0) :
    (xenbus_read_otherend_details env id_node path_node x).2.dev.otherend ≠ none := by
  simp only [xenbus_read_otherend_details, xenbus_dev_fatal, free_otherend_details] at h ⊢
  split_ifs at h ⊢ <;> simp_all [ENOENT]

theorem talk_to_otherend_frontend (env : Env) (drv : xenbus_driver) (s : Sys)
    (hfe : drv.read_otherend_details = read_backend_details env) :
    (talk_to_otherend drv s).2.dev.otherend_watch = none ∧
      ((talk_to_otherend drv s).1 = 0 → (talk_to_otherend drv s).2.dev.otherend ≠ none) := by
  simp only [talk_to_otherend, hfe, read_backend_details]
  refine ⟨?_, xenbus_read_otherend_details_ok env _ _ _⟩
  rw [xenbus_read_otherend_details_watch]
  cases hw : s.dev.otherend_watch <;> simp [free_otherend_details, free_otherend_watch, hw]

theorem watch_otherend_invariant (env : Env) (x : Sys) (h : x.dev.otherend ≠ none) :
    otherend_invariant (watch_otherend env x).2.dev := by
  intro _
  by_cases he : env.register_xenbus_watch
      (x.dev.otherend.getD "(null)".toList ++ "/state".toList) ≠ 0
  · simp only [watch_otherend, xenbus_dev_fatal, if_pos he]
    exact h
  · simp only [watch_otherend, if_neg he]
    exact h

theorem xenbus_dev_remove_fields (drv : xenbus_driver) (s : Sys) :
    (xenbus_dev_remove drv s).2.dev.otherend_watch = none ∧
      (xenbus_dev_remove drv s).2.dev.otherend = none ∧
      (xenbus_dev_remove drv s).2.dev.state = XenbusState.Closed := by
  cases hr : drv.remove <;> cases hw : s.dev.otherend_watch <;>
    simp [xenbus_dev_remove, xenbus_switch_state, free_otherend_details,
      free_otherend_watch, hr, hw]

theorem xenbus_dev_probe_invariant (env : Env) (drv : xenbus_driver) (s : Sys)
    (hfe : drv.read_otherend_details = read_backend_details env)
    (hinv : otherend_invariant s.dev) :
    otherend_invariant (xenbus_dev_probe env drv s).2.dev := by
  obtain ⟨htw, hto⟩ := talk_to_otherend_frontend env drv s hfe
  cases hp : drv.probe with
  | none =>
    simp only [xenbus_dev_probe, hp, xenbus_dev_probe_fail, xenbus_switch_state,
      xenbus_dev_error]
    exact hinv
  | some probe =>
    cases hm : match_device drv.ids s.dev with
    | none =>
      simp only [xenbus_dev_probe, hp, hm, xenbus_dev_probe_fail, xenbus_switch_state,
        xenbus_dev_error]
      exact hinv
    | some id =>
      simp only [xenbus_dev_probe, hp, hm]
      by_cases h1 : (talk_to_otherend drv s).1 ≠ 0
      · rw [if_pos h1]
        exact otherend_invariant_of_no_watch _ htw
      · rw [if_neg h1]
        by_cases h2 : (probe (talk_to_otherend drv s).2.dev id).1 ≠ 0
        · rw [if_pos h2]
          exact otherend_invariant_of_no_watch _ htw
        · rw [if_neg h2, snd_ite_same]
          exact watch_otherend_invariant env _ (hto (not_not.1 h1))

theorem resume_dev_invariant (env : Env) (drv : xenbus_driver) (s : Sys)
    (hfe : drv.read_otherend_details = read_backend_details env) :
    otherend_invariant (resume_dev env (some drv) s).2.dev := by
  obtain ⟨htw, hto⟩ := talk_to_otherend_frontend env drv s hfe
  simp only [resume_dev]
  by_cases h1 : (talk_to_otherend drv s).1 ≠ 0
  · rw [if_pos h1]
    exact otherend_invariant_of_no_watch _ htw
  · rw [if_neg h1]
    cases hres : drv.resume with
    | none =>
      simp only [snd_ite_same]
      exact watch_otherend_invariant env _ (hto (not_not.1 h1))
    | some resume =>
      simp only []
      split_ifs
      · exact otherend_invariant_of_no_watch _ htw
      · exact watch_otherend_invariant env _ (hto (not_not.1 h1))
      · exact watch_otherend_invariant env _ (hto (not_not.1 h1))

/-- C6, as stated, fails for `xenbus_read_otherend_details`: on a device with a
registered watch whose `backend` key turns out empty it frees the other-end
path and keeps the watch, so the invariant holds before and not after. -/
theorem xenbus_read_otherend_details_counterexample :
    otherend_invariant dev_vbd ∧
      ¬ otherend_invariant (xenbus_read_otherend_details env_empty_backend
          "backend-id".toList "backend".toList { dev := dev_vbd, log := [] }).2.dev := by
  decide

theorem xenbus_read_otherend_details_log (env : Env) (id_node path_node : List Char)
    (x : Sys) : x.log <+: (xenbus_read_otherend_details env id_node path_node x).2.log := by
  simp only [xenbus_read_otherend_details, xenbus_dev_fatal, free_otherend_details]
  split_ifs <;> simp

theorem watch_otherend_log (env : Env) (x : Sys) :
    x.log <+: (watch_otherend env x).2.log := by
  simp only [watch_otherend, xenbus_dev_fatal]
  split_ifs <;> simp

theorem talk_to_otherend_unregisters (env : Env) (drv : xenbus_driver) (s : Sys)
    (node : List Char) (hfe : drv.read_otherend_details = read_backend_details env)
    (hw : s.dev.otherend_watch = some node) :
    s.log ++ [Event.unregister_watch node] <+: (talk_to_otherend drv s).2.log := by
  simp only [talk_to_otherend, hfe, read_backend_details]
  refine List.IsPrefix.trans ?_ (xenbus_read_otherend_details_log env _ _ _)
  simp [free_otherend_details, free_otherend_watch, hw]

theorem xenbus_dev_remove_unregisters (drv : xenbus_driver) (s : Sys) (node : List Char)
    (hw : s.dev.otherend_watch = some node) :
    s.log ++ [Event.unregister_watch node] <+: (xenbus_dev_remove drv s).2.log := by
  cases hr : drv.remove <;>
    simp [xenbus_dev_remove, xenbus_switch_state, free_otherend_details,
      free_otherend_watch, hr, hw]

theorem xenbus_dev_probe_unregisters (env : Env) (drv : xenbus_driver) (s : Sys)
    (node : List Char) (hfe : drv.read_otherend_details = read_backend_details env)
    (hw : s.dev.otherend_watch = some node) :
    ((xenbus_dev_probe env drv s).2.dev.otherend = s.dev.otherend ∧
        (xenbus_dev_probe env drv s).2.dev.otherend_watch = s.dev.otherend_watch) ∨
      s.log ++ [Event.unregister_watch node] <+: (xenbus_dev_probe env drv s).2.log := by
  have ht := talk_to_otherend_unregisters env drv s node hfe hw
  cases hp : drv.probe with
  | none =>
    left
    simp [xenbus_dev_probe, hp, xenbus_dev_probe_fail, xenbus_switch_state, xenbus_dev_error]
  | some probe =>
    cases hm : match_device drv.ids s.dev with
    | none =>
      left
      simp [xenbus_dev_probe, hp, hm, xenbus_dev_probe_fail, xenbus_switch_state,
        xenbus_dev_error]
    | some id =>
      right
      simp only [xenbus_dev_probe, hp, hm]
      by_cases h1 : (talk_to_otherend drv s).1 ≠ 0
      · rw [if_pos h1]
        exact ht
      · rw [if_neg h1]
        by_cases h2 : (probe (talk_to_otherend drv s).2.dev id).1 ≠ 0
        · rw [if_pos h2]
          refine List.IsPrefix.trans ht ?_
          simp [xenbus_dev_probe_fail, xenbus_switch_state, xenbus_dev_error]
        · rw [if_neg h2, snd_ite_same]
          refine List.IsPrefix.trans (List.IsPrefix.trans ht ?_) (watch_otherend_log env _)
          simp

theorem resume_dev_unregisters (env : Env) (drv : xenbus_driver) (s : Sys)
    (node : List Char) (hfe : drv.read_otherend_details = read_backend_details env)
    (hw : s.dev.otherend_watch = some node) :
    s.log ++ [Event.unregister_watch node] <+: (resume_dev env (some drv) s).2.log := by
  have ht := talk_to_otherend_unregisters env drv s node hfe hw
  simp only [resume_dev]
  by_cases h1 : (talk_to_otherend drv s).1 ≠ 0
  · rw [if_pos h1]
    exact ht
  · rw [if_neg h1]
    cases hres : drv.resume with
    | none =>
      simp only [snd_ite_same]
      refine List.IsPrefix.trans (List.IsPrefix.trans ht ?_) (watch_otherend_log env _)
      simp
    | some resume =>
      simp only []
      by_cases h2 : (resume { (talk_to_otherend drv s).2.dev with
          state := XenbusState.Initialising }).1 ≠ 0
      · rw [if_pos h2]
        refine List.IsPrefix.trans ht ?_
        simp
      · rw [if_neg h2, snd_ite_same]
        refine List.IsPrefix.trans (List.IsPrefix.trans ht ?_) (watch_otherend_log env _)
        simp

theorem mem_drop_of_append_singleton_le {α : Type} (l m : List α) (a : α)
    (h : l ++ [a] <+: m) : a ∈ m.drop l.length := by
  obtain ⟨t, ht⟩ := h
  rw [← ht]
  simp

/-- C6, amended: for a driver of the frontend bus (its `read_otherend_details`
is `read_backend_details`), the invariant "watch registered implies other-end
path known" is preserved by `talk_to_otherend` (which leaves no watch),
`xenbus_dev_probe`, `xenbus_dev_remove` (which leaves neither watch nor path)
and `resume_dev`, and each of these four frees the watch in the operation in
which it frees the path: when the device had a watch, the log of the operation
holds its unregistration, unless the operation (a probe that stops before the
other-end lookup) left both other-end fields as they were.
`xenbus_read_otherend_details` never touches the watch and preserves the
invariant when it is entered without a registered watch. -/
theorem otherend_invariant_preserved (env : Env) (drv : xenbus_driver) (s : Sys)
    (hfe : drv.read_otherend_details = read_backend_details env)
    (hinv : otherend_invariant s.dev) :
    (otherend_invariant (talk_to_otherend drv s).2.dev ∧
        (talk_to_otherend drv s).2.dev.otherend_watch = none) ∧
      otherend_invariant (xenbus_dev_probe env drv s).2.dev ∧
      (otherend_invariant (xenbus_dev_remove drv s).2.dev ∧
        (xenbus_dev_remove drv s).2.dev.otherend_watch = none ∧
        (xenbus_dev_remove drv s).2.dev.otherend = none) ∧
      otherend_invariant (resume_dev env (some drv) s).2.dev ∧
      otherend_invariant (resume_dev env none s).2.dev ∧
      (∀ id_node path_node,
        (xenbus_read_otherend_details env id_node path_node s).2.dev.otherend_watch =
            s.dev.otherend_watch ∧
          (s.dev.otherend_watch = none →
            otherend_invariant (xenbus_read_otherend_details env id_node path_node s).2.dev)) ∧
      (∀ node, s.dev.otherend_watch = some node →
        Event.unregister_watch node ∈ (talk_to_otherend drv s).2.log.drop s.log.length ∧
        Event.unregister_watch node ∈ (xenbus_dev_remove drv s).2.log.drop s.log.length ∧
        Event.unregister_watch node ∈
          (resume_dev env (some drv) s).2.log.drop s.log.length ∧
        (((xenbus_dev_probe env drv s).2.dev.otherend = s.dev.otherend ∧
            (xenbus_dev_probe env drv s).2.dev.otherend_watch = s.dev.otherend_watch) ∨
          Event.unregister_watch node ∈
            (xenbus_dev_probe env drv s).2.log.drop s.log.length)) := by
  have htw := (talk_to_otherend_frontend env drv s hfe).1
  have hrm := xenbus_dev_remove_fields drv s
  refine ⟨⟨otherend_invariant_of_no_watch _ htw, htw⟩,
    xenbus_dev_probe_invariant env drv s hfe hinv,
    ⟨otherend_invariant_of_no_watch _ hrm.1, hrm.1, hrm.2.1⟩,
    resume_dev_invariant env drv s hfe, hinv, ?_, ?_⟩
  · intro id_node path_node
    refine ⟨xenbus_read_otherend_details_watch env id_node path_node s, fun hw => ?_⟩
    apply otherend_invariant_of_no_watch
    rw [xenbus_read_otherend_details_watch, hw]
  · intro node hw
    refine ⟨mem_drop_of_append_singleton_le _ _ _
        (talk_to_otherend_unregisters env drv s node hfe hw),
      mem_drop_of_append_singleton_le _ _ _ (xenbus_dev_remove_unregisters drv s node hw),
      mem_drop_of_append_singleton_le _ _ _ (resume_dev_unregisters env drv s node hfe hw),
      ?_⟩
    rcases xenbus_dev_probe_unregisters env drv s node hfe hw with h | h
    · exact Or.inl h
    · exact Or.inr (mem_drop_of_append_singleton_le _ _ _ h)

/-- C6, amended, on a probe of `device/vbd/51712`, which had a watch: the probe
ends with the invariant in force and a watch registered anew, and the watch
the device had is unregistered by the `talk_to_otherend` that freed its
other-end path. -/
theorem otherend_invariant_preserved_witness :
    otherend_invariant (xenbus_dev_probe env_running drv_vbd { dev := dev_vbd, log := [] }).2.dev ∧
      (xenbus_dev_probe env_running drv_vbd { dev := dev_vbd, log := [] }).2.dev.otherend_watch =
        some "backend/vbd/0/51712/state".toList ∧
      Event.unregister_watch "backend/vbd/0/51712/state".toList ∈
        (talk_to_otherend drv_vbd { dev := dev_vbd, log := [] }).2.log :=
  ⟨(otherend_invariant_preserved env_running drv_vbd { dev := dev_vbd, log := [] } rfl
      (by decide)).2.1, by decide,
   ((otherend_invariant_preserved env_running drv_vbd { dev := dev_vbd, log := [] } rfl
      (by decide)).2.2.2.2.2.2 "backend/vbd/0/51712/state".toList rfl).1⟩

/-! ## Probe: claims C7 and C8 -/

theorem match_device_none_of_no_entry (ids : List xenbus_device_id) (dev : xenbus_device)
    (hno : ∀ id ∈ ids.takeWhile (fun i => decide (i.devicetype ≠ [])),
      id.devicetype ≠ dev.devicetype) :
    match_device ids dev = none := by
  induction ids with
  | nil => rfl
  | cons arr rest ih =>
    by_cases he : arr.devicetype = []
    · simp [match_device, he]
    · have hne : arr.devicetype ≠ dev.devicetype := by
        apply hno
        simp [List.takeWhile_cons, he]
      have hs : strcmp arr.devicetype dev.devicetype ≠ 0 :=
        fun e => hne ((strcmp_eq_zero_iff _ _).1 e)
      have hrest : match_device rest dev = none := by
        apply ih
        intro id hid
        apply hno
        rw [List.takeWhile_cons]
        simp only [ne_eq, he, not_false_eq_true, decide_True, ite_true]
        exact List.mem_cons_of_mem _ hid
      simp [match_device, he, hs, hrest]

/-- C7: when no entry of the match table before its sentinel has the device's
type, `xenbus_dev_probe` returns -ENODEV after reporting the error and
switching the device to Closed, and these two effects are all it adds to the
log: neither `read_otherend_details` nor the `probe` callback is invoked.
Entries after the sentinel are not looked at. -/
theorem xenbus_dev_probe_no_match (env : Env) (drv : xenbus_driver) (s : Sys)
    (hno : ∀ id ∈ drv.ids.takeWhile (fun i => decide (i.devicetype ≠ [])),
      id.devicetype ≠ s.dev.devicetype) :
    xenbus_dev_probe env drv s =
        (-ENODEV,
          { dev := { s.dev with state := XenbusState.Closed },
            log := s.log ++ [Event.dev_error s.dev.nodename (-ENODEV),
              Event.xs_write_state s.dev.nodename XenbusState.Closed] }) ∧
      Event.call_read_otherend_details s.dev.nodename ∉
        (xenbus_dev_probe env drv s).2.log.drop s.log.length ∧
      Event.call_probe s.dev.nodename ∉
        (xenbus_dev_probe env drv s).2.log.drop s.log.length := by
  have hm := match_device_none_of_no_entry drv.ids s.dev hno
  have h : xenbus_dev_probe env drv s =
      (-ENODEV,
        { dev := { s.dev with state := XenbusState.Closed },
          log := s.log ++ [Event.dev_error s.dev.nodename (-ENODEV),
            Event.xs_write_state s.dev.nodename XenbusState.Closed] }) := by
    cases hp : drv.probe <;>
      simp [xenbus_dev_probe, hp, hm, xenbus_dev_probe_fail, xenbus_switch_state,
        xenbus_dev_error]
  rw [h]
  simp

/-- C7 on a table that names the device type only after its sentinel. -/
theorem xenbus_dev_probe_no_match_witness :
    (xenbus_dev_probe env_running drv_late_entry { dev := dev_vif, log := [] }).1 = -ENODEV ∧
      (xenbus_dev_probe env_running drv_late_entry { dev := dev_vif, log := [] }).2.log =
        [Event.dev_error "device/vif/0".toList (-ENODEV),
         Event.xs_write_state "device/vif/0".toList XenbusState.Closed] := by
  have h := (xenbus_dev_probe_no_match env_running drv_late_entry
    { dev := dev_vif, log := [] } (by decide)).1
  rw [h]
  exact ⟨rfl, rfl⟩

theorem xenbus_read_otherend_details_frame (env : Env) (id_node path_node : List Char)
    (x : Sys) :
    (xenbus_read_otherend_details env id_node path_node x).2.dev.state = x.dev.state ∧
      (xenbus_read_otherend_details env id_node path_node x).2.dev.nodename = x.dev.nodename ∧
      ∀ n, Event.device_unregister n ∈
          (xenbus_read_otherend_details env id_node path_node x).2.log →
        Event.device_unregister n ∈ x.log := by
  simp only [xenbus_read_otherend_details, xenbus_dev_fatal, free_otherend_details]
  split_ifs <;> simp

theorem talk_to_otherend_frontend_frame (env : Env) (drv : xenbus_driver) (s : Sys)
    (hfe : drv.read_otherend_details = read_backend_details env) :
    (talk_to_otherend drv s).2.dev.state = s.dev.state ∧
      (talk_to_otherend drv s).2.dev.nodename = s.dev.nodename ∧
      ∀ n, Event.device_unregister n ∈ (talk_to_otherend drv s).2.log →
        Event.device_unregister n ∈ s.log := by
  simp only [talk_to_otherend, hfe, read_backend_details]
  obtain ⟨h1, h2, h3⟩ := xenbus_read_otherend_details_frame env "backend-id".toList
    "backend".toList
    { dev := (free_otherend_details (free_otherend_watch s)).dev,
      log := (free_otherend_details (free_otherend_watch s)).log ++
        [Event.call_read_otherend_details
          (free_otherend_details (free_otherend_watch s)).dev.nodename] }
  refine ⟨?_, ?_, ?_⟩
  · rw [h1]
    cases hw : s.dev.otherend_watch <;> simp [free_otherend_details, free_otherend_watch, hw]
  · rw [h2]
    cases hw : s.dev.otherend_watch <;> simp [free_otherend_details, free_otherend_watch, hw]
  · intro n hn
    have := h3 n hn
    cases hw : s.dev.otherend_watch <;>
      simpa [free_otherend_details, free_otherend_watch, hw] using this

theorem watch_otherend_frame (env : Env) (x : Sys) :
    (watch_otherend env x).2.dev.state = x.dev.state ∧
      ((watch_otherend env x).1 ≠ 0 →
        (watch_otherend env x).2.dev.otherend_watch = x.dev.otherend_watch ∧
        (watch_otherend env x).2.log =
          x.log ++ [Event.dev_fatal x.dev.nodename (watch_otherend env x).1]) ∧
      ∀ n, Event.device_unregister n ∈ (watch_otherend env x).2.log →
        Event.device_unregister n ∈ x.log := by
  by_cases he : env.register_xenbus_watch
      (x.dev.otherend.getD "(null)".toList ++ "/state".toList) ≠ 0
  · simp only [watch_otherend, xenbus_dev_fatal, if_pos he]
    simp
  · simp only [watch_otherend, if_neg he]
    simp

/-- C8, as stated, fails: when the other-end lookup fails, `xenbus_dev_probe`
returns the error of the lookup and the device stays in the state it had;
nothing is written to its state key. -/
theorem xenbus_dev_probe_lookup_failure_counterexample :
    xenbus_dev_probe env_no_backend drv_vbd_no_backend { dev := dev_vbd_new, log := [] } =
      (-ENOENT,
        { dev := dev_vbd_new,
          log := [Event.call_read_otherend_details "device/vbd/51712".toList,
            Event.xs_gather "device/vbd/51712".toList "backend-id".toList "backend".toList,
            Event.dev_fatal "device/vbd/51712".toList (-ENOENT)] }) ∧
      (-ENOENT : Int) ≠ 0 ∧ dev_vbd_new.state ≠ XenbusState.Closed := by
  decide

/-- C8, amended: for a driver of the frontend bus, `xenbus_dev_probe` switches
the device to Closed and returns -ENODEV on its `fail` exit, which is taken when
the driver has no probe callback, when no table entry matches and when the
driver's probe callback fails.  When the other-end lookup fails it returns the
error of the lookup with the state of the device unchanged; when the watch
registration fails it returns that error with the state the driver's probe
callback left and no watch.  On no path does it unregister the device. -/
theorem xenbus_dev_probe_failure_paths (env : Env) (drv : xenbus_driver) (s : Sys)
    (hfe : drv.read_otherend_details = read_backend_details env) :
    (drv.probe = none ∨ match_device drv.ids s.dev = none →
        xenbus_dev_probe env drv s =
          (-ENODEV,
            { dev := { s.dev with state := XenbusState.Closed },
              log := s.log ++ [Event.dev_error s.dev.nodename (-ENODEV),
                Event.xs_write_state s.dev.nodename XenbusState.Closed] })) ∧
      (∀ probe id, drv.probe = some probe → match_device drv.ids s.dev = some id →
        ((talk_to_otherend drv s).1 ≠ 0 →
          xenbus_dev_probe env drv s = talk_to_otherend drv s ∧
            (xenbus_dev_probe env drv s).2.dev.state = s.dev.state) ∧
        ((talk_to_otherend drv s).1 = 0 →
          (probe (talk_to_otherend drv s).2.dev id).1 ≠ 0 →
          (xenbus_dev_probe env drv s).1 = -ENODEV ∧
            (xenbus_dev_probe env drv s).2.dev.state = XenbusState.Closed ∧
            (xenbus_dev_probe env drv s).2.log.getLast? =
              some (Event.xs_write_state s.dev.nodename XenbusState.Closed)) ∧
        ((talk_to_otherend drv s).1 = 0 →
          (probe (talk_to_otherend drv s).2.dev id).1 = 0 →
          (xenbus_dev_probe env drv s).1 ≠ 0 →
          (xenbus_dev_probe env drv s).2.dev.state =
              (probe (talk_to_otherend drv s).2.dev id).2 ∧
            (xenbus_dev_probe env drv s).2.dev.otherend_watch = none ∧
            (xenbus_dev_probe env drv s).2.log.getLast? =
              some (Event.dev_fatal s.dev.nodename (xenbus_dev_probe env drv s).1))) ∧
      (∀ n, Event.device_unregister n ∈ (xenbus_dev_probe env drv s).2.log →
        Event.device_unregister n ∈ s.log) := by
  obtain ⟨hts, htn, htl⟩ := talk_to_otherend_frontend_frame env drv s hfe
  have htw := (talk_to_otherend_frontend env drv s hfe).1
  refine ⟨?_, ?_, ?_⟩
  · intro h
    cases hp : drv.probe with
    | none => simp [xenbus_dev_probe, hp, xenbus_dev_probe_fail, xenbus_switch_state,
        xenbus_dev_error]
    | some probe =>
      have hm : match_device drv.ids s.dev = none := by
        rcases h with h | h
        · rw [hp] at h
          cases h
        · exact h
      simp [xenbus_dev_probe, hp, hm, xenbus_dev_probe_fail, xenbus_switch_state,
        xenbus_dev_error]
  · intro probe id hp hm
    refine ⟨?_, ?_, ?_⟩
    · intro h1
      have he : xenbus_dev_probe env drv s = talk_to_otherend drv s := by
        simp only [xenbus_dev_probe, hp, hm]
        rw [if_pos h1]
      exact ⟨he, by rw [he, hts]⟩
    · intro h1 h2
      have h1n : ¬ (talk_to_otherend drv s).1 ≠ 0 := not_not.2 h1
      simp only [xenbus_dev_probe, hp, hm]
      rw [if_neg h1n, if_pos h2]
      simp [xenbus_dev_probe_fail, xenbus_switch_state, xenbus_dev_error, htn]
    · intro h1 h2
      have h1n : ¬ (talk_to_otherend drv s).1 ≠ 0 := not_not.2 h1
      have h2n : ¬ (probe (talk_to_otherend drv s).2.dev id).1 ≠ 0 := not_not.2 h2
      simp only [xenbus_dev_probe, hp, hm]
      rw [if_neg h1n, if_neg h2n]
      intro h3
      split_ifs at h3 ⊢ with hw
      · obtain ⟨hws, hwf, _⟩ := watch_otherend_frame env
          { dev := { (talk_to_otherend drv s).2.dev with
              state := (probe (talk_to_otherend drv s).2.dev id).2 },
            log := (talk_to_otherend drv s).2.log ++
              [Event.call_probe (talk_to_otherend drv s).2.dev.nodename] }
        obtain ⟨hww, hwl⟩ := hwf hw
        refine ⟨hws, ?_, ?_⟩
        · rw [hww]
          exact htw
        · rw [hwl]
          simp [htn]
      · exact absurd rfl h3
  · intro n hn
    cases hp : drv.probe with
    | none =>
      simpa [xenbus_dev_probe, hp, xenbus_dev_probe_fail, xenbus_switch_state,
        xenbus_dev_error] using hn
    | some probe =>
      cases hm : match_device drv.ids s.dev with
      | none =>
        simpa [xenbus_dev_probe, hp, hm, xenbus_dev_probe_fail, xenbus_switch_state,
          xenbus_dev_error] using hn
      | some id =>
        simp only [xenbus_dev_probe, hp, hm] at hn
        by_cases h1 : (talk_to_otherend drv s).1 ≠ 0
        · rw [if_pos h1] at hn
          exact htl n hn
        · rw [if_neg h1] at hn
          by_cases h2 : (probe (talk_to_otherend drv s).2.dev id).1 ≠ 0
          · rw [if_pos h2] at hn
            apply htl
            simpa [xenbus_dev_probe_fail, xenbus_switch_state, xenbus_dev_error] using hn
          · rw [if_neg h2, snd_ite_same] at hn
            have h3 := (watch_otherend_frame env _).2.2 n hn
            apply htl
            simpa using h3

/-- C8, amended, on a probe that takes the `fail` exit for want of a match. -/
theorem xenbus_dev_probe_failure_paths_witness :
    xenbus_dev_probe env_running drv_late_entry { dev := dev_vif, log := [] } =
      (-ENODEV,
        { dev := { dev_vif with state := XenbusState.Closed },
          log := [Event.dev_error "device/vif/0".toList (-ENODEV),
            Event.xs_write_state "device/vif/0".toList XenbusState.Closed] }) :=
  (xenbus_dev_probe_failure_paths env_running drv_late_entry { dev := dev_vif, log := [] }
    rfl).1 (Or.inr (by decide))

/-! ## Remove and shutdown: claims C9 and C10 -/

/-- Two calls of `xenbus_dev_remove` with the same driver: the second returns
0, leaves the device record as the first call left it, and adds to the log the
invocation of the driver's `remove` callback, when the driver has one, followed
by the write of state Closed, and nothing else. -/
theorem xenbus_dev_remove_twice (drv : xenbus_driver) (s : Sys) :
    (xenbus_dev_remove drv s).1 = 0 ∧
      (xenbus_dev_remove drv s).2.dev.otherend_watch = none ∧
      (xenbus_dev_remove drv s).2.dev.otherend = none ∧
      (xenbus_dev_remove drv s).2.dev.state = XenbusState.Closed ∧
      (xenbus_dev_remove drv (xenbus_dev_remove drv s).2).1 = 0 ∧
      (xenbus_dev_remove drv (xenbus_dev_remove drv s).2).2.dev =
        (xenbus_dev_remove drv s).2.dev ∧
      (xenbus_dev_remove drv (xenbus_dev_remove drv s).2).2.log =
        (xenbus_dev_remove drv s).2.log ++
          (match drv.remove with
            | some _ => [Event.call_remove s.dev.nodename]
            | none => []) ++
          [Event.xs_write_state s.dev.nodename XenbusState.Closed] := by
  obtain ⟨h1, h2, h3⟩ := xenbus_dev_remove_fields drv s
  refine ⟨rfl, h1, h2, h3, rfl, ?_, ?_⟩
  · cases hr : drv.remove <;> cases hw : s.dev.otherend_watch <;>
      simp [xenbus_dev_remove, xenbus_switch_state, free_otherend_details,
        free_otherend_watch, hr, hw]
  · cases hr : drv.remove <;> cases hw : s.dev.otherend_watch <;>
      simp [xenbus_dev_remove, xenbus_switch_state, free_otherend_details,
        free_otherend_watch, hr, hw]

/-- C10, as stated, fails in both directions: outside the initial domain a
Connected device is switched to Closing (the call is not a no-op), and inside
the initial domain the call returns at once and the Connected device is not
switched. -/
theorem xenbus_dev_shutdown_domain_gate_counterexample :
    env_running.is_initial_xendomain = false ∧
      xenbus_dev_shutdown env_running { dev := dev_vif_connected, log := [] } =
        { dev := { dev_vif_connected with state := XenbusState.Closing },
          log := [Event.get_device "device/vif/0".toList,
            Event.xs_write_state "device/vif/0".toList XenbusState.Closing,
            Event.wait_for_completion "device/vif/0".toList,
            Event.put_device "device/vif/0".toList] } ∧
      env_dom0.is_initial_xendomain = true ∧
      xenbus_dev_shutdown env_dom0 { dev := dev_vif_connected, log := [] } =
        { dev := dev_vif_connected, log := [] } := by
  decide

/-- C10, amended: `xenbus_dev_shutdown` is a no-op (the state it was given is
returned: no state write, no wait, no reference taken) when the instance is
the initial domain; when it is not, it takes a reference and checks the state:
a Connected device is switched to Closing, any other device is left as it is
and the reference is released. -/
theorem xenbus_dev_shutdown_domain_gate (env : Env) (s : Sys) :
    (env.is_initial_xendomain = true → xenbus_dev_shutdown env s = s) ∧
      (env.is_initial_xendomain = false → s.dev.state = XenbusState.Connected →
        (xenbus_dev_shutdown env s).dev = { s.dev with state := XenbusState.Closing } ∧
          s.log ++ [Event.get_device s.dev.nodename,
            Event.xs_write_state s.dev.nodename XenbusState.Closing] <+:
              (xenbus_dev_shutdown env s).log) ∧
      (env.is_initial_xendomain = false → s.dev.state ≠ XenbusState.Connected →
        xenbus_dev_shutdown env s =
          { dev := s.dev,
            log := s.log ++ [Event.get_device s.dev.nodename,
              Event.put_device s.dev.nodename] }) := by
  refine ⟨?_, ?_, ?_⟩
  · intro h
    simp [xenbus_dev_shutdown, h]
  · intro h hc
    by_cases hv : strcmp s.dev.devicetype "vfb".toList = 0
    · simp only [xenbus_dev_shutdown, h, hc, xenbus_switch_state]
      simp only [Bool.false_eq_true, if_false, ne_eq, not_true_eq_false, if_pos hv]
      exact ⟨trivial, ⟨[Event.put_device s.dev.nodename], by simp⟩⟩
    · simp only [xenbus_dev_shutdown, h, hc, xenbus_switch_state]
      simp only [Bool.false_eq_true, if_false, ne_eq, not_true_eq_false, if_neg hv]
      exact ⟨trivial, ⟨[Event.wait_for_completion s.dev.nodename,
        Event.put_device s.dev.nodename], by simp⟩⟩
  · intro h hc
    simp [xenbus_dev_shutdown, h, hc]

/-- C10, amended, on a Connected device inside and outside the initial domain. -/
theorem xenbus_dev_shutdown_domain_gate_witness :
    xenbus_dev_shutdown env_dom0 { dev := dev_vif_connected, log := [] } =
        { dev := dev_vif_connected, log := [] } ∧
      (xenbus_dev_shutdown env_running { dev := dev_vif_connected, log := [] }).dev =
        { dev_vif_connected with state := XenbusState.Closing } :=
  ⟨(xenbus_dev_shutdown_domain_gate env_dom0 { dev := dev_vif_connected, log := [] }).1 rfl,
   ((xenbus_dev_shutdown_domain_gate env_running
      { dev := dev_vif_connected, log := [] }).2.1 rfl rfl).1⟩

/-! ## Shutdown past the domain gate and the watch callback while going down: claims C11 and C12 -/

/-- C11: past the domain gate, `xenbus_dev_shutdown` takes a reference, writes
state Closing exactly when the device was Connected, waits on the completion
signal (`wait_for_completion_timeout` with five seconds) exactly when the
device was Connected and its type is not `vfb`, and releases the reference as
its last effect; a device that was not Connected keeps its record. -/
theorem xenbus_dev_shutdown_past_gate (env : Env) (s : Sys)
    (hgate : env.is_initial_xendomain = false) :
    xenbus_dev_shutdown env s =
      { dev := if s.dev.state = XenbusState.Connected then
            { s.dev with state := XenbusState.Closing } else s.dev,
        log := s.log ++ [Event.get_device s.dev.nodename] ++
          (if s.dev.state = XenbusState.Connected then
            [Event.xs_write_state s.dev.nodename XenbusState.Closing] else []) ++
          (if s.dev.state = XenbusState.Connected ∧ s.dev.devicetype ≠ "vfb".toList then
            [Event.wait_for_completion s.dev.nodename] else []) ++
          [Event.put_device s.dev.nodename] } := by
  by_cases hc : s.dev.state = XenbusState.Connected
  · by_cases hv : s.dev.devicetype = "vfb".toList
    · have h0 : strcmp s.dev.devicetype "vfb".toList = 0 := (strcmp_eq_zero_iff _ _).2 hv
      simp only [xenbus_dev_shutdown, hgate, xenbus_switch_state, hc]
      simp only [Bool.false_eq_true, if_false, ne_eq, not_true_eq_false, if_pos h0]
      simp [hv]
    · have h0 : ¬ strcmp s.dev.devicetype "vfb".toList = 0 :=
        fun e => hv ((strcmp_eq_zero_iff _ _).1 e)
      simp only [xenbus_dev_shutdown, hgate, xenbus_switch_state, hc]
      simp only [Bool.false_eq_true, if_false, ne_eq, not_true_eq_false, if_neg h0]
      have hv2 : ¬ s.dev.devicetype = ['v', 'f', 'b'] := hv
      simp [hv2]
  · simp [xenbus_dev_shutdown, hgate, hc]

/-- C11 on Scenario C: a Connected `vfb` device is switched to Closing and the
call returns without waiting. -/
theorem xenbus_dev_shutdown_past_gate_witness :
    xenbus_dev_shutdown env_running { dev := dev_vfb_connected, log := [] } =
      { dev := { dev_vfb_connected with state := XenbusState.Closing },
        log := [Event.get_device "device/vfb/0".toList,
          Event.xs_write_state "device/vfb/0".toList XenbusState.Closing,
          Event.put_device "device/vfb/0".toList] } := by
  rw [xenbus_dev_shutdown_past_gate env_running { dev := dev_vfb_connected, log := [] } rfl]
  decide

/-- C12: when the other-end path is a prefix of the changed path and the
system is past its running phase, the watch callback reads the peer state and
then drives the device to the closed terminal state exactly when the bus has
two levels and the peer state is Closing; it does nothing else, and the
driver's `otherend_changed` callback is not invoked. -/
theorem otherend_changed_while_going_down (env : Env) (bus : xen_bus_type)
    (drv : xenbus_driver) (path : List Char) (s : Sys) (oe : List Char)
    (hoe : s.dev.otherend = some oe) (hp : oe <+: path)
    (hdown : env.system_state > SYSTEM_RUNNING) :
    otherend_changed env bus drv path s =
        (if bus.levels = 2 ∧ env.xenbus_read_driver_state oe = XenbusState.Closing then
          xenbus_frontend_closed { s with log := s.log ++ [Event.xs_read_state oe] }
        else { s with log := s.log ++ [Event.xs_read_state oe] }) ∧
      (∀ st, Event.call_otherend_changed s.dev.nodename st ∉
        (otherend_changed env bus drv path s).log.drop s.log.length) ∧
      (Event.complete s.dev.nodename ∈
          (otherend_changed env bus drv path s).log.drop s.log.length ↔
        bus.levels = 2 ∧ env.xenbus_read_driver_state oe = XenbusState.Closing) := by
  have h0 : strncmp oe path (strlen oe) = 0 := (strncmp_self_length_eq_zero_iff oe path).2 hp
  have h : otherend_changed env bus drv path s =
      (if bus.levels = 2 ∧ env.xenbus_read_driver_state oe = XenbusState.Closing then
        xenbus_frontend_closed { s with log := s.log ++ [Event.xs_read_state oe] }
      else { s with log := s.log ++ [Event.xs_read_state oe] }) := by
    simp [otherend_changed, hoe, h0, hdown]
  rw [h]
  by_cases hc : bus.levels = 2 ∧ env.xenbus_read_driver_state oe = XenbusState.Closing
  · rw [if_pos hc]
    simp [xenbus_frontend_closed, xenbus_switch_state, hc]
  · rw [if_neg hc]
    simp [hc]

/-- C12 on a frontend whose backend is Closing while the system halts. -/
theorem otherend_changed_while_going_down_witness :
    (otherend_changed env_halting bus_frontend drv_vbd "backend/vbd/0/51712/state".toList
        { dev := dev_vbd, log := [] }).log =
      [Event.xs_read_state "backend/vbd/0/51712".toList,
       Event.xs_write_state "device/vbd/51712".toList XenbusState.Closed,
       Event.complete "device/vbd/51712".toList] := by
  rw [(otherend_changed_while_going_down env_halting bus_frontend drv_vbd
    "backend/vbd/0/51712/state".toList { dev := dev_vbd, log := [] }
    "backend/vbd/0/51712".toList rfl (by decide) (by decide)).1]
  decide

/-! ## Creating a device record: claims C13 and C14 -/

theorem map_last_append_singleton {α : Type} (f : α → α) (l : List α) (x : α) :
    map_last f (l ++ [x]) = l ++ [f x] := by
  induction l with
  | nil => rfl
  | cons a l ih =>
    cases l with
    | nil => rfl
    | cons b l =>
      simp only [List.cons_append, map_last] at ih ⊢
      exact congrArg (fun t => a :: t) ih

/-- C13: on a bus without error, `xenbus_probe_node` returns 0 and registers
nothing when the state read for the node is not Initialising; when it is
Initialising and allocation, bus-id formatting, registration and the three
attribute files succeed, it returns 0 and appends one record to the devices of
the bus, with the node name as node path, the given type as device type and
local state Initialising.  No driver callback appears in the log. -/
theorem xenbus_probe_node_registers (env : Env) (bus : xen_bus_type)
    (type nodename : List Char) (st : BusSt) (herr : bus.error = 0) :
    (env.xenbus_read_driver_state nodename ≠ XenbusState.Initialising →
        xenbus_probe_node env bus type nodename st =
          (0, { devices := st.devices,
                log := st.log ++ [Event.xs_read_state nodename] })) ∧
      (env.xenbus_read_driver_state nodename = XenbusState.Initialising →
        env.kzalloc_fails = false →
        (bus.get_bus_id env.XEN_BUS_ID_SIZE nodename).1 = 0 →
        env.device_register nodename = 0 →
        (∀ a, env.device_create_file nodename a = 0) →
        xenbus_probe_node env bus type nodename st =
          (0, { devices := st.devices ++
                  [{ nodename := nodename, devicetype := type,
                     state := XenbusState.Initialising, otherend := none,
                     otherend_id := 0, otherend_watch := none,
                     dev := { bus_id := (bus.get_bus_id env.XEN_BUS_ID_SIZE nodename).2.getD [],
                              files := [DevAttr.nodename, DevAttr.devtype,
                                DevAttr.modalias] } }],
                log := st.log ++ [Event.xs_read_state nodename,
                  Event.device_register nodename,
                  Event.create_file nodename DevAttr.nodename,
                  Event.create_file nodename DevAttr.devtype,
                  Event.create_file nodename DevAttr.modalias] })) := by
  refine ⟨?_, ?_⟩
  · intro hs
    simp [xenbus_probe_node, herr, hs]
  · intro hs hk hid hreg hfiles
    simp [xenbus_probe_node, herr, hs, hk, hid, hreg, hfiles, device_register,
      device_create_file, map_last_append_singleton]

/-- C13 on Scenario A: `device/vif/0` is Initialising in the store and becomes
one record in state Initialising, named `vif-0`. -/
theorem xenbus_probe_node_registers_witness :
    xenbus_probe_node env_new bus_frontend "vif".toList "device/vif/0".toList
        { devices := [], log := [] } =
      (0, { devices := [{ mk_dev "device/vif/0".toList "vif".toList XenbusState.Initialising with
                dev := { bus_id := "vif-0".toList,
                         files := [DevAttr.nodename, DevAttr.devtype, DevAttr.modalias] } }],
            log := [Event.xs_read_state "device/vif/0".toList,
              Event.device_register "device/vif/0".toList,
              Event.create_file "device/vif/0".toList DevAttr.nodename,
              Event.create_file "device/vif/0".toList DevAttr.devtype,
              Event.create_file "device/vif/0".toList DevAttr.modalias] }) := by
  rw [(xenbus_probe_node_registers env_new bus_frontend "vif".toList "device/vif/0".toList
    { devices := [], log := [] } rfl).2 rfl rfl rfl rfl (fun _ => rfl)]
  decide

/-- The failure exits of `xenbus_probe_node` once the record is allocated on a
bus without error: each returns the error of the failing step and leaves the
devices of the bus (and with them their attribute files) as they were before
the call; the log shows the steps completed so far followed by their undoing
in reverse order.  On the three exits that pass `fail_unregister` the record is
freed by the release callback inside `device_unregister` and then once more
by `kfree(xendev)` at `fail`. -/
theorem xenbus_probe_node_failure_exits (env : Env) (bus : xen_bus_type)
    (type nodename : List Char) (st : BusSt) (herr : bus.error = 0)
    (hs : env.xenbus_read_driver_state nodename = XenbusState.Initialising)
    (hk : env.kzalloc_fails = false) :
    ((bus.get_bus_id env.XEN_BUS_ID_SIZE nodename).1 ≠ 0 →
        xenbus_probe_node env bus type nodename st =
          ((bus.get_bus_id env.XEN_BUS_ID_SIZE nodename).1,
            { devices := st.devices,
              log := st.log ++ [Event.xs_read_state nodename,
                Event.kfree_xendev nodename] })) ∧
      ((bus.get_bus_id env.XEN_BUS_ID_SIZE nodename).1 = 0 →
        (env.device_register nodename ≠ 0 →
          xenbus_probe_node env bus type nodename st =
            (env.device_register nodename,
              { devices := st.devices,
                log := st.log ++ [Event.xs_read_state nodename,
                  Event.kfree_xendev nodename] })) ∧
        (env.device_register nodename = 0 →
          (env.device_create_file nodename DevAttr.nodename ≠ 0 →
            xenbus_probe_node env bus type nodename st =
              (env.device_create_file nodename DevAttr.nodename,
                { devices := st.devices,
                  log := st.log ++ [Event.xs_read_state nodename,
                    Event.device_register nodename,
                    Event.device_unregister nodename,
                    Event.kfree_xendev nodename,
                    Event.kfree_xendev nodename] })) ∧
          (env.device_create_file nodename DevAttr.nodename = 0 →
            (env.device_create_file nodename DevAttr.devtype ≠ 0 →
              xenbus_probe_node env bus type nodename st =
                (env.device_create_file nodename DevAttr.devtype,
                  { devices := st.devices,
                    log := st.log ++ [Event.xs_read_state nodename,
                      Event.device_register nodename,
                      Event.create_file nodename DevAttr.nodename,
                      Event.remove_file nodename DevAttr.nodename,
                      Event.device_unregister nodename,
                      Event.kfree_xendev nodename,
                      Event.kfree_xendev nodename] })) ∧
            (env.device_create_file nodename DevAttr.devtype = 0 →
              env.device_create_file nodename DevAttr.modalias ≠ 0 →
              xenbus_probe_node env bus type nodename st =
                (env.device_create_file nodename DevAttr.modalias,
                  { devices := st.devices,
                    log := st.log ++ [Event.xs_read_state nodename,
                      Event.device_register nodename,
                      Event.create_file nodename DevAttr.nodename,
                      Event.create_file nodename DevAttr.devtype,
                      Event.remove_file nodename DevAttr.devtype,
                      Event.remove_file nodename DevAttr.nodename,
                      Event.device_unregister nodename,
                      Event.kfree_xendev nodename,
                      Event.kfree_xendev nodename] }))))) := by
  refine ⟨?_, ?_⟩
  · intro h1
    simp [xenbus_probe_node, herr, hs, hk, h1, kfree_xendev]
  · intro h1
    refine ⟨?_, ?_⟩
    · intro h2
      simp [xenbus_probe_node, herr, hs, hk, h1, h2, kfree_xendev]
    · intro h2
      refine ⟨?_, ?_⟩
      · intro h3
        simp [xenbus_probe_node, herr, hs, hk, h1, h2, h3, kfree_xendev, device_register,
          device_unregister, xenbus_dev_release]
      · intro h3
        refine ⟨?_, ?_⟩
        · intro h4
          simp [xenbus_probe_node, herr, hs, hk, h1, h2, h3, h4, kfree_xendev,
            device_register, device_unregister, xenbus_dev_release, device_create_file,
            device_remove_file, map_last_append_singleton]
        · intro h4 h5
          simp [xenbus_probe_node, herr, hs, hk, h1, h2, h3, h4, h5, kfree_xendev,
            device_register, device_unregister, xenbus_dev_release, device_create_file,
            device_remove_file, map_last_append_singleton]

/-- C14 at a failing input: the `modalias` attribute cannot be created for
`device/vif/0` on a bus that already holds a block device.  The call returns
the error of that step, the devices of the bus are as before and the attribute
files are removed in reverse order, but the record is released twice: once by
the release callback that `device_unregister` runs, and once more by
`kfree(xendev)` at the label `fail`. -/
theorem xenbus_probe_node_frees_record_twice :
    xenbus_probe_node env_modalias_fails bus_frontend "vif".toList "device/vif/0".toList
        st_one_vbd =
      (-ENOMEM,
        { devices := [dev_vbd],
          log := [Event.xs_read_state "device/vif/0".toList,
            Event.device_register "device/vif/0".toList,
            Event.create_file "device/vif/0".toList DevAttr.nodename,
            Event.create_file "device/vif/0".toList DevAttr.devtype,
            Event.remove_file "device/vif/0".toList DevAttr.devtype,
            Event.remove_file "device/vif/0".toList DevAttr.nodename,
            Event.device_unregister "device/vif/0".toList,
            Event.kfree_xendev "device/vif/0".toList,
            Event.kfree_xendev "device/vif/0".toList] }) ∧
      (xenbus_probe_node env_modalias_fails bus_frontend "vif".toList "device/vif/0".toList
        st_one_vbd).2.log.count (Event.kfree_xendev "device/vif/0".toList) = 2 := by
  have h := ((((xenbus_probe_node_failure_exits env_modalias_fails bus_frontend "vif".toList
    "device/vif/0".toList st_one_vbd rfl rfl rfl).2 rfl).2 rfl).2 rfl).2 rfl (by decide)
  rw [h]
  exact ⟨rfl, by decide⟩

/-! ## The sticky bus error and the enumeration: claims C15 and C16 -/

/-- C15: on a bus whose `error` field is non-zero, `xenbus_probe_devices`,
`xenbus_probe_node` and `xenbus_register_driver_common` return that error;
the first and the last leave the bus state as it was, `xenbus_probe_node` has
only read the state of the node and registers nothing; `xenbus_dev_changed`
returns the bus state it was given. -/
theorem sticky_bus_error (env : Env) (bus : xen_bus_type) (st : BusSt)
    (herr : bus.error ≠ 0) :
    (∀ probe, xenbus_probe_devices env probe bus st = (bus.error, st)) ∧
      (∀ type nodename, xenbus_probe_node env bus type nodename st =
        (bus.error, { devices := st.devices,
                      log := st.log ++ [Event.xs_read_state nodename] })) ∧
      (∀ drv, xenbus_register_driver_common env drv bus st = (bus.error, st)) ∧
      (∀ fuel node, xenbus_dev_changed env fuel node bus st = some st) := by
  refine ⟨?_, ?_, ?_, ?_⟩
  · intro probe
    simp [xenbus_probe_devices, herr]
  · intro type nodename
    simp [xenbus_probe_node, herr]
  · intro drv
    simp [xenbus_register_driver_common, herr]
  · intro fuel node
    simp [xenbus_dev_changed, herr]

/-- C15 on the frontend bus before its registration succeeded. -/
theorem sticky_bus_error_witness :
    xenbus_probe_devices env_new (xenbus_probe_frontend env_new) bus_frontend_failed
        st_one_vbd = (-ENODEV, st_one_vbd) ∧
      xenbus_register_driver_common env_new drv_vbd bus_frontend_failed st_one_vbd =
        (-ENODEV, st_one_vbd) ∧
      xenbus_dev_changed env_new 2 "device/vif/0".toList bus_frontend_failed st_one_vbd =
        some st_one_vbd :=
  ⟨(sticky_bus_error env_new bus_frontend_failed st_one_vbd (by decide)).1 _,
   (sticky_bus_error env_new bus_frontend_failed st_one_vbd (by decide)).2.2.1 _,
   (sticky_bus_error env_new bus_frontend_failed st_one_vbd (by decide)).2.2.2 _ _⟩

theorem xenbus_probe_devices_loop_stops (env : Env)
    (probe : xen_bus_type → List Char → List Char → BusSt → Int × BusSt)
    (bus : xen_bus_type) (pre : List (List Char)) (c : List Char) (post : List (List Char))
    (st : BusSt) (hpre : (xenbus_probe_devices_loop env probe bus pre st).1 = 0)
    (hfail : (xenbus_probe_device_type env probe bus c
      (xenbus_probe_devices_loop env probe bus pre st).2).1 ≠ 0) :
    xenbus_probe_devices_loop env probe bus (pre ++ c :: post) st =
      xenbus_probe_device_type env probe bus c
        (xenbus_probe_devices_loop env probe bus pre st).2 := by
  induction pre generalizing st with
  | nil =>
    simp only [xenbus_probe_devices_loop, List.nil_append] at hfail ⊢
    rw [if_pos hfail]
  | cons a pre ih =>
    simp only [xenbus_probe_devices_loop, List.cons_append] at hpre hfail ⊢
    by_cases ha : (xenbus_probe_device_type env probe bus a st).1 ≠ 0
    · rw [if_pos ha] at hpre
      exact absurd hpre ha
    · simp only [if_neg ha] at hpre hfail ⊢
      exact ih _ hpre hfail

/-- C16, as stated, fails: the listing of the class `vbd` fails, and the class
`vif`, which comes after it under the bus root, is never listed and its
instance never registered; the error goes back to the caller. -/
theorem xenbus_probe_devices_abandons_bus_counterexample :
    xenbus_probe_devices env_vbd_unlistable (xenbus_probe_frontend env_vbd_unlistable)
        bus_frontend st_empty =
      (-ENOENT,
        { devices := [],
          log := [Event.xs_directory "device".toList [],
            Event.xs_directory "device".toList "vbd".toList] }) ∧
      (xenbus_probe_device_type env_vbd_unlistable (xenbus_probe_frontend env_vbd_unlistable)
        bus_frontend "vif".toList st_empty).2.devices.map (fun d => d.nodename) =
          ["device/vif/0".toList] := by
  decide

/-- C16, amended: on a bus without error, when the enumeration of one device
class returns an error (its listing fails or the probe of one of its instances
fails), `xenbus_probe_devices` stops there: the classes listed before it have
been enumerated, the result is the error and the state that class left, and
the classes listed after it play no part. -/
theorem xenbus_probe_devices_stops_at_failure (env : Env)
    (probe : xen_bus_type → List Char → List Char → BusSt → Int × BusSt)
    (bus : xen_bus_type) (st : BusSt) (pre : List (List Char)) (c : List Char)
    (post : List (List Char)) (herr : bus.error = 0)
    (hdir : env.xenbus_directory bus.root [] = (0, pre ++ c :: post))
    (hpre : (xenbus_probe_devices_loop env probe bus pre
      { devices := st.devices, log := st.log ++ [Event.xs_directory bus.root []] }).1 = 0)
    (hfail : (xenbus_probe_device_type env probe bus c
      (xenbus_probe_devices_loop env probe bus pre
        { devices := st.devices,
          log := st.log ++ [Event.xs_directory bus.root []] }).2).1 ≠ 0) :
    xenbus_probe_devices env probe bus st =
      xenbus_probe_device_type env probe bus c
        (xenbus_probe_devices_loop env probe bus pre
          { devices := st.devices,
            log := st.log ++ [Event.xs_directory bus.root []] }).2 := by
  have h := xenbus_probe_devices_loop_stops env probe bus pre c post _ hpre hfail
  simp only [xenbus_probe_devices, herr, hdir]
  simpa using h

/-- C16, amended, on the store whose class `vbd` cannot be listed. -/
theorem xenbus_probe_devices_stops_at_failure_witness :
    xenbus_probe_devices env_vbd_unlistable (xenbus_probe_frontend env_vbd_unlistable)
        bus_frontend st_empty =
      xenbus_probe_device_type env_vbd_unlistable (xenbus_probe_frontend env_vbd_unlistable)
        bus_frontend "vbd".toList
        { devices := [], log := [Event.xs_directory "device".toList []] } :=
  xenbus_probe_devices_stops_at_failure env_vbd_unlistable
    (xenbus_probe_frontend env_vbd_unlistable) bus_frontend st_empty [] "vbd".toList
    ["vif".toList] rfl (by decide) (by decide) (by decide)

/-! ## Resume and suspend sweeps: claims C17 and C18 -/

/-- C17 at a failing input: the frontend bus holds the bound devices
`device/vbd/51712` and `device/vif/0`, in this order, and the other-end lookup
of the first fails.  `resume_dev` returns the error, `bus_for_each_dev` stops,
and the second device is not resumed: its record is untouched (it is not set
back to Initialising) and no effect on it is logged, although resuming it on
its own succeeds. -/
theorem xenbus_resume_stops_at_first_failure :
    (xenbus_resume env_vbd_backend_missing bus_frontend devs_vbd_vif []).1.map
        (fun b => b.dev) =
      [{ dev_vbd with otherend := none, otherend_watch := none }, dev_vif_connected] ∧
    (xenbus_resume env_vbd_backend_missing bus_frontend devs_vbd_vif []).2 =
      [Event.xb_init_comms, Event.xs_resume,
       Event.unregister_watch "backend/vbd/0/51712/state".toList,
       Event.call_read_otherend_details "device/vbd/51712".toList,
       Event.xs_gather "device/vbd/51712".toList "backend-id".toList "backend".toList,
       Event.dev_fatal "device/vbd/51712".toList (-ENOENT),
       Event.xenbus_backend_resume, Event.xen_unplug_emulated_devices] ∧
    (resume_dev env_vbd_backend_missing (some drv_resumable)
        { dev := dev_vif_connected, log := [] }).1 = 0 ∧
    (resume_dev env_vbd_backend_missing (some drv_resumable)
        { dev := dev_vif_connected, log := [] }).2.dev.state = XenbusState.Initialising := by
  decide

theorem bus_for_each_dev_suspend_dev (devs : List bound_device) (log : List Event) :
    (bus_for_each_dev suspend_dev devs log).1 = 0 ∧
      (bus_for_each_dev suspend_dev devs log).2.2 =
        log ++ (devs.filter
          (fun b => (b.driver.bind xenbus_driver.suspend).isSome)).map
          (fun b => Event.call_suspend b.dev.nodename) := by
  induction devs generalizing log with
  | nil => simp [bus_for_each_dev]
  | cons b rest ih =>
    cases hd : b.driver with
    | none =>
      simp [bus_for_each_dev, suspend_dev, hd, ih]
    | some drv =>
      cases hs : drv.suspend with
      | none => simp [bus_for_each_dev, suspend_dev, hd, hs, ih]
      | some cb => simp [bus_for_each_dev, suspend_dev, hd, hs, ih]

theorem bus_for_each_dev_suspend_cancel_dev (devs : List bound_device) (log : List Event) :
    (bus_for_each_dev suspend_cancel_dev devs log).1 = 0 ∧
      (bus_for_each_dev suspend_cancel_dev devs log).2.2 =
        log ++ (devs.filter
          (fun b => (b.driver.bind xenbus_driver.suspend_cancel).isSome)).map
          (fun b => Event.call_suspend_cancel b.dev.nodename) := by
  induction devs generalizing log with
  | nil => simp [bus_for_each_dev]
  | cons b rest ih =>
    cases hd : b.driver with
    | none =>
      simp [bus_for_each_dev, suspend_cancel_dev, hd, ih]
    | some drv =>
      cases hs : drv.suspend_cancel with
      | none => simp [bus_for_each_dev, suspend_cancel_dev, hd, hs, ih]
      | some cb => simp [bus_for_each_dev, suspend_cancel_dev, hd, hs, ih]

/-- C18: whatever the driver's `suspend` or `suspend_cancel` callback returns,
`suspend_dev` and `suspend_cancel_dev` return 0, and a device without driver is
skipped with result 0 and no effect; so the sweep over the devices of the
frontend bus runs to its end with result 0, and its log gains one invocation
of the callback for every device whose driver has it, in bus order. -/
theorem suspend_sweep_best_effort (drv : Option xenbus_driver) (s : Sys)
    (devs : List bound_device) (log : List Event) :
    (suspend_dev drv s).1 = 0 ∧ (suspend_cancel_dev drv s).1 = 0 ∧
      suspend_dev none s = (0, s) ∧ suspend_cancel_dev none s = (0, s) ∧
      (bus_for_each_dev suspend_dev devs log).1 = 0 ∧
      (bus_for_each_dev suspend_dev devs log).2.2 =
        log ++ (devs.filter
          (fun b => (b.driver.bind xenbus_driver.suspend).isSome)).map
          (fun b => Event.call_suspend b.dev.nodename) ∧
      (bus_for_each_dev suspend_cancel_dev devs log).1 = 0 ∧
      (bus_for_each_dev suspend_cancel_dev devs log).2.2 =
        log ++ (devs.filter
          (fun b => (b.driver.bind xenbus_driver.suspend_cancel).isSome)).map
          (fun b => Event.call_suspend_cancel b.dev.nodename) := by
  have h1 : (suspend_dev drv s).1 = 0 := by
    cases drv with
    | none => rfl
    | some d => cases hs : d.suspend <;> simp [suspend_dev, hs]
  have h2 : (suspend_cancel_dev drv s).1 = 0 := by
    cases drv with
    | none => rfl
    | some d => cases hs : d.suspend_cancel <;> simp [suspend_cancel_dev, hs]
  exact ⟨h1, h2, rfl, rfl, (bus_for_each_dev_suspend_dev devs log).1,
    (bus_for_each_dev_suspend_dev devs log).2,
    (bus_for_each_dev_suspend_cancel_dev devs log).1,
    (bus_for_each_dev_suspend_cancel_dev devs log).2⟩

/-! ## Reset of the frontends: claim C19 -/

theorem xenbus_reset_frontend_eq_steps (env : Env) (fe be : List Char) (be_state : Int)
    (log : List Event) (hk : env.kasprintf_fails = false) :
    xenbus_reset_frontend env fe be be_state log =
      log ++ [Event.register_watch (be ++ "/state".toList)] ++
        run_reset_steps fe be (reset_steps.drop (reset_first_step be_state)) ++
        [Event.unregister_watch (be ++ "/state".toList)] := by
  by_cases h4 : be_state = 4
  · subst h4
    simp [xenbus_reset_frontend, hk, XenbusState.toInt, reset_first_step, reset_steps,
      run_reset_steps, xenbus_reset_frontend_case_Connected,
      xenbus_reset_frontend_case_Closing, xenbus_reset_frontend_case_Closed,
      xenbus_reset_wait_for_backend]
  · by_cases h5 : be_state = 5
    · subst h5
      simp [xenbus_reset_frontend, hk, XenbusState.toInt, reset_first_step, reset_steps,
        run_reset_steps, xenbus_reset_frontend_case_Closing,
        xenbus_reset_frontend_case_Closed, xenbus_reset_wait_for_backend]
    · by_cases h6 : be_state = 6
      · subst h6
        simp [xenbus_reset_frontend, hk, XenbusState.toInt, reset_first_step, reset_steps,
          run_reset_steps, xenbus_reset_frontend_case_Closed, xenbus_reset_wait_for_backend]
      · simp [xenbus_reset_frontend, hk, XenbusState.toInt, reset_first_step, reset_steps,
          run_reset_steps, h4, h5, h6]

/-- C19: for a frontend `device/<class>/<dev>` whose state in the store is
Connected or Closed and whose backend path and backend state can be read, the
reset registers a watch on the backend state, runs the steps of the list
[(Closing, Closing), (Closed, Closed), (Initialising, InitWait)] from the first
one for a Connected backend, the second for a Closing one, the third for a
Closed one and none otherwise (each step writes the frontend state and then
waits for the backend state), and removes the watch.  Whenever a step runs,
the last step is (Initialising, InitWait).  A frontend in any other state is
only read.  (`kasprintf` is assumed to succeed.) -/
theorem xenbus_check_frontend_runs_steps (env : Env) (cls dev : List Char)
    (log : List Event) (hk : env.kasprintf_fails = false) :
    (∀ fe_state backend be_state,
        env.xenbus_scanf_state ("device/".toList ++ cls ++ '/' :: dev) = some fe_state →
        fe_state = XenbusState.Connected.toInt ∨ fe_state = XenbusState.Closed.toInt →
        env.xenbus_read ("device/".toList ++ cls ++ '/' :: dev) "backend".toList =
          some backend →
        env.xenbus_scanf_state backend = some be_state →
        xenbus_check_frontend env cls dev log =
          log ++ [Event.xs_scanf_state ("device/".toList ++ cls ++ '/' :: dev),
              Event.xs_read ("device/".toList ++ cls ++ '/' :: dev) "backend".toList,
              Event.xs_scanf_state backend,
              Event.register_watch (backend ++ "/state".toList)] ++
            run_reset_steps ("device/".toList ++ cls ++ '/' :: dev) backend
              (reset_steps.drop (reset_first_step be_state)) ++
            [Event.unregister_watch (backend ++ "/state".toList)]) ∧
      (∀ be_state, reset_first_step be_state < 3 →
        (reset_steps.drop (reset_first_step be_state)).getLast? =
          some (XenbusState.Initialising, XenbusState.InitWait)) ∧
      (∀ fe_state,
        env.xenbus_scanf_state ("device/".toList ++ cls ++ '/' :: dev) = some fe_state →
        ¬ (fe_state = XenbusState.Connected.toInt ∨ fe_state = XenbusState.Closed.toInt) →
        xenbus_check_frontend env cls dev log =
          log ++ [Event.xs_scanf_state ("device/".toList ++ cls ++ '/' :: dev)]) := by
  refine ⟨?_, ?_, ?_⟩
  · intro fe_state backend be_state hfe hst hbe hbs
    have h := xenbus_reset_frontend_eq_steps env ("device/".toList ++ cls ++ '/' :: dev)
      backend be_state
      (log ++ [Event.xs_scanf_state ("device/".toList ++ cls ++ '/' :: dev)] ++
        [Event.xs_read ("device/".toList ++ cls ++ '/' :: dev) "backend".toList] ++
        [Event.xs_scanf_state backend]) hk
    simp only [xenbus_check_frontend, hk, hfe, hbe, hbs, if_pos hst]
    simp only [Bool.false_eq_true, if_false]
    rw [h]
    simp
  · intro be_state h
    unfold reset_first_step at h ⊢
    split_ifs at h ⊢ <;> first | rfl | omega
  · intro fe_state hfe hst
    simp only [xenbus_check_frontend, hk, hfe, if_neg hst]
    simp

/-- C19 on Scenario D: frontend `device/vif/0` and its backend are both Closed;
the frontend is written Initialising and the backend awaited in InitWait. -/
theorem xenbus_check_frontend_runs_steps_witness :
    xenbus_check_frontend env_after_kexec "vif".toList "0".toList [] =
      [Event.xs_scanf_state "device/vif/0".toList,
       Event.xs_read "device/vif/0".toList "backend".toList,
       Event.xs_scanf_state "backend/vif/0/0".toList,
       Event.register_watch "backend/vif/0/0/state".toList,
       Event.xs_write_state "device/vif/0".toList XenbusState.Initialising,
       Event.wait_for_backend "backend/vif/0/0".toList XenbusState.InitWait,
       Event.unregister_watch "backend/vif/0/0/state".toList] := by
  rw [(xenbus_check_frontend_runs_steps env_after_kexec "vif".toList "0".toList [] rfl).1
    6 "backend/vif/0/0".toList 6 rfl (Or.inr rfl) rfl rfl]
  decide

/-! ## Change detection on a path that still exists -/

theorem strchr_append_of_not_mem (a t : List Char) (c : Char) (h : c ∉ a) :
    strchr (a ++ c :: t) c = some (c :: t) := by
  induction a with
  | nil => simp [strchr]
  | cons x xs ih =>
    have hx : ¬ x = c := fun e => h (by simp [e])
    have hxs : c ∉ xs := fun e => h (List.mem_cons_of_mem _ e)
    simp [strchr, hx, ih hxs]

theorem strchr_none_of_not_mem (s : List Char) (c : Char) (h : c ∉ s) :
    strchr s c = none := by
  induction s with
  | nil => rfl
  | cons x xs ih =>
    have hx : ¬ x = c := fun e => h (by simp [e])
    have hxs : c ∉ xs := fun e => h (List.mem_cons_of_mem _ e)
    simp [strchr, hx, ih hxs]

theorem replace_first_append_of_not_mem (b t : List Char) (c r : Char) (h : c ∉ b) :
    replace_first c r (b ++ c :: t) = b ++ r :: t := by
  induction b with
  | nil => simp [replace_first]
  | cons x xs ih =>
    have hx : ¬ x = c := fun e => h (by simp [e])
    have hxs : c ∉ xs := fun e => h (List.mem_cons_of_mem _ e)
    simp [replace_first, hx, ih hxs]

/-- C21: `frontend_bus_id` turns `device/<type>/<id>` into `<type>-<id>`.  Write
the node name as `a/t`, with no separator in `a`, so that `t` is the text
after the first separator.  If `t` is shorter than `XEN_BUS_ID_SIZE` and is
`b/c` with no separator in `b`, the result is 0 and the bus id is `b-c`: only
the first separator of `t` is replaced, those of `c` are kept.  The result is
-EINVAL with the buffer never written when the node name has no separator or
when `t` has `XEN_BUS_ID_SIZE` characters or more, and -EINVAL with the
buffer holding `t` as it is when `t` is short enough and has no separator. -/
theorem frontend_bus_id_spec (size : Nat) (nodename : List Char) :
    (∀ a b c, '/' ∉ a → '/' ∉ b → nodename = a ++ '/' :: (b ++ '/' :: c) →
        (b ++ '/' :: c).length < size →
        frontend_bus_id size nodename = (0, some (b ++ '-' :: c))) ∧
      ('/' ∉ nodename → frontend_bus_id size nodename = (-EINVAL, none)) ∧
      (∀ a t, '/' ∉ a → nodename = a ++ '/' :: t → size ≤ t.length →
        frontend_bus_id size nodename = (-EINVAL, none)) ∧
      (∀ a t, '/' ∉ a → nodename = a ++ '/' :: t → t.length < size → '/' ∉ t →
        frontend_bus_id size nodename = (-EINVAL, some t)) := by
  refine ⟨?_, ?_, ?_, ?_⟩
  · intro a b c ha hb hn hlen
    have hnot : ¬ (b ++ '/' :: c).length ≥ size := by omega
    have htake : (b ++ '/' :: c).take (size - 1) = b ++ '/' :: c :=
      List.take_of_length_le (by omega)
    have hnot2 : ¬ strlen (List.drop 1 ('/' :: (b ++ '/' :: c))) ≥ size := by
      simpa [strlen] using hnot
    simp only [frontend_bus_id, hn, strchr_append_of_not_mem a _ '/' ha, if_neg hnot2]
    simp only [List.drop_succ_cons, List.drop_zero, htake,
      strchr_append_of_not_mem b c '/' hb, replace_first_append_of_not_mem b c '/' '-' hb]
  · intro h
    simp only [frontend_bus_id, strchr_none_of_not_mem nodename '/' h]
  · intro a t ha hn hlen
    have hge : strlen (List.drop 1 ('/' :: t)) ≥ size := by
      simpa [strlen] using hlen
    simp only [frontend_bus_id, hn, strchr_append_of_not_mem a t '/' ha, if_pos hge]
  · intro a t ha hn hlen ht
    have htake : t.take (size - 1) = t := List.take_of_length_le (by omega)
    have hnot2 : ¬ strlen (List.drop 1 ('/' :: t)) ≥ size := by
      simp only [strlen, List.drop_succ_cons, List.drop_zero]
      omega
    simp only [frontend_bus_id, hn, strchr_append_of_not_mem a t '/' ha, if_neg hnot2]
    simp only [List.drop_succ_cons, List.drop_zero, htake, strchr_none_of_not_mem t '/' ht]

/-- C21 on `device/vbd/51712/a`: the bus id is `vbd-51712/a`, the later
separator kept. -/
theorem frontend_bus_id_spec_witness :
    frontend_bus_id 20 "device/vbd/51712/a".toList = (0, some "vbd-51712/a".toList) :=
  (frontend_bus_id_spec 20 "device/vbd/51712/a".toList).1 "device".toList "vbd".toList
    "51712/a".toList (by decide) (by decide) (by decide) (by decide)

/-! ## Change detection on a path that still exists, on the frontend bus: claim C20 -/

end Xenbus
